import Mathlib

/-!
# assetto-server-manager: wire message catalogue and race manager

A shallow embedding of `pkg/udp/model.go` (the tagged message catalogue) and of
the quick-race / custom-race operations of `race_manager.go`, followed by the
properties established about them.
-/

namespace Udp

/-! ## pkg/udp/model.go -/

/-- Go `type Event int`. -/
abbrev Event := Int

-- Receive
abbrev EventCollisionWithCar : Event := 10
abbrev EventCollisionWithEnv : Event := 11
abbrev EventNewSession : Event := 50
abbrev EventNewConnection : Event := 51
abbrev EventConnectionClosed : Event := 52
abbrev EventCarUpdate : Event := 53
abbrev EventCarInfo : Event := 54
abbrev EventEndSession : Event := 55
abbrev EventVersion : Event := 56
abbrev EventChat : Event := 57
abbrev EventClientLoaded : Event := 58
abbrev EventSessionInfo : Event := 59
abbrev EventError : Event := 60
abbrev EventLapCompleted : Event := 73
abbrev EventClientEvent : Event := 130
abbrev EventSectorCompleted : Event := 88

-- Send
abbrev EventRealtimeposInterval : Event := 200
abbrev EventGetCarInfo : Event := 201
abbrev EventSendChat : Event := 202
abbrev EventBroadcastChat : Event := 203
abbrev EventGetSessionInfo : Event := 204
abbrev EventSetSessionInfo : Event := 205
abbrev EventKickUser : Event := 206
abbrev EventNextSession : Event := 207
abbrev EventRestartSession : Event := 208
abbrev EventAdminCommand : Event := 209

/-- The constants of the `// Receive` block, in declaration order. -/
def receiveEvents : List Event :=
  [EventCollisionWithCar, EventCollisionWithEnv, EventNewSession, EventNewConnection,
   EventConnectionClosed, EventCarUpdate, EventCarInfo, EventEndSession, EventVersion,
   EventChat, EventClientLoaded, EventSessionInfo, EventError, EventLapCompleted,
   EventClientEvent, EventSectorCompleted]

/-- The constants of the `// Send` block, in declaration order. -/
def sendEvents : List Event :=
  [EventRealtimeposInterval, EventGetCarInfo, EventSendChat, EventBroadcastChat,
   EventGetSessionInfo, EventSetSessionInfo, EventKickUser, EventNextSession,
   EventRestartSession, EventAdminCommand]

/-- Every constant of the `const` block. -/
def allEvents : List Event := receiveEvents ++ sendEvents

/-- Go `type CarID uint8`, kept as its numeric value. -/
abbrev CarID := Nat

/-- A Go `float32`, kept as its 32-bit pattern; no arithmetic is done on it here. -/
abbrev Float32 := Nat

/-- The embedded `error` of `ServerError`: `none` is the nil interface, `some s` an error
with text `s`. -/
abbrev GoError := Option String

structure ServerError where
  error : GoError
  deriving DecidableEq, Repr

structure LapCompletedInternal where
  CarID : CarID
  LapTime : Nat
  Cuts : Nat
  CarsCount : Nat
  deriving DecidableEq, Repr

structure LapCompletedCar where
  CarID : CarID
  LapTime : Nat
  Laps : Nat
  Completed : Nat
  deriving DecidableEq, Repr

structure LapCompleted where
  toLapCompletedInternal : LapCompletedInternal
  Cars : List LapCompletedCar
  deriving DecidableEq, Repr

structure Vec where
  X : Float32
  Y : Float32
  Z : Float32
  deriving DecidableEq, Repr

structure CollisionWithCar where
  CarID : CarID
  OtherCarID : Nat
  ImpactSpeed : Float32
  WorldPos : Vec
  RelPos : Vec
  deriving DecidableEq, Repr

structure CollisionWithEnvironment where
  CarID : CarID
  ImpactSpeed : Float32
  WorldPos : Vec
  RelPos : Vec
  deriving DecidableEq, Repr

structure SessionCarInfo where
  CarID : CarID
  DriverName : String
  DriverGUID : String
  CarMode : String
  CarSkin : String
  event : Event
  deriving DecidableEq, Repr

structure Chat where
  CarID : CarID
  Message : String
  deriving DecidableEq, Repr

structure CarInfo where
  CarID : CarID
  IsConnected : Bool
  CarModel : String
  CarSkin : String
  DriverName : String
  DriverTeam : String
  DriverGUID : String
  deriving DecidableEq, Repr

structure CarUpdate where
  CarID : CarID
  Pos : Vec
  Velocity : Vec
  Gear : Nat
  EngineRPM : Nat
  NormalisedSplinePos : Float32
  deriving DecidableEq, Repr

/-- Go `type EndSession string`. -/
abbrev EndSession := String

/-- Go `type Version uint8`. -/
abbrev Version := Nat

/-- Go `type ClientLoaded CarID`. -/
abbrev ClientLoaded := CarID

structure SessionInfo where
  Version : Nat
  SessionIndex : Nat
  CurrentSessionIndex : Nat
  SessionCount : Nat
  ServerName : String
  Track : String
  TrackConfig : String
  Name : String
  /-- Field `Type` of the source (a reserved word here). -/
  Type_ : Nat
  Time : Nat
  Laps : Nat
  WaitTime : Nat
  AmbientTemp : Nat
  RoadTemp : Nat
  WeatherGraphics : String
  ElapsedMilliseconds : Int
  event : Event
  deriving DecidableEq, Repr

/-- The struct `SectorCompleted`; the file declares no `Event` method on it. -/
structure SectorCompleted where
  Num : Nat
  Anothernum : Nat
  Time : Nat
  deriving DecidableEq, Repr

/-- The Go zero value of `SessionInfo` (`SessionInfo{}`, or `var s SessionInfo`). -/
def SessionInfo.zero : SessionInfo :=
  { Version := 0, SessionIndex := 0, CurrentSessionIndex := 0, SessionCount := 0,
    ServerName := "", Track := "", TrackConfig := "", Name := "", Type_ := 0, Time := 0,
    Laps := 0, WaitTime := 0, AmbientTemp := 0, RoadTemp := 0, WeatherGraphics := "",
    ElapsedMilliseconds := 0, event := 0 }

/-- The Go zero value of `SessionCarInfo`. -/
def SessionCarInfo.zero : SessionCarInfo :=
  { CarID := 0, DriverName := "", DriverGUID := "", CarMode := "", CarSkin := "", event := 0 }

/-- The interface `Message`: a value of one of the types of the file that have an
`Event() Event` method, one constructor per such type. -/
inductive Message where
  | ServerError (v : ServerError)
  | LapCompleted (v : LapCompleted)
  | CollisionWithCar (v : CollisionWithCar)
  | CollisionWithEnvironment (v : CollisionWithEnvironment)
  | SessionCarInfo (v : SessionCarInfo)
  | Chat (v : Chat)
  | CarInfo (v : CarInfo)
  | CarUpdate (v : CarUpdate)
  | EndSession (v : EndSession)
  | Version (v : Version)
  | ClientLoaded (v : ClientLoaded)
  | SessionInfo (v : SessionInfo)
  deriving DecidableEq, Repr

/-- Method `func (ServerError) Event() Event` -/
def ServerError.Event (_ : ServerError) : Event := EventError

/-- Method `func (LapCompleted) Event() Event` -/
def LapCompleted.Event (_ : LapCompleted) : Event := EventLapCompleted

/-- Method `func (CollisionWithCar) Event() Event` -/
def CollisionWithCar.Event (_ : CollisionWithCar) : Event := EventCollisionWithCar

/-- Method `func (CollisionWithEnvironment) Event() Event` -/
def CollisionWithEnvironment.Event (_ : CollisionWithEnvironment) : Event := EventCollisionWithEnv

/-- Method `func (s SessionCarInfo) Event() Event` -/
def SessionCarInfo.Event (s : SessionCarInfo) : Event := s.event

/-- Method `func (Chat) Event() Event` -/
def Chat.Event (_ : Chat) : Event := EventChat

/-- Method `func (CarInfo) Event() Event` -/
def CarInfo.Event (_ : CarInfo) : Event := EventCarInfo

/-- Method `func (CarUpdate) Event() Event` -/
def CarUpdate.Event (_ : CarUpdate) : Event := EventCarUpdate

/-- Method `func (EndSession) Event() Event` -/
def EndSession.Event (_ : EndSession) : Event := EventEndSession

/-- Method `func (Version) Event() Event` -/
def Version.Event (_ : Version) : Event := EventVersion

/-- Method `func (ClientLoaded) Event() Event` -/
def ClientLoaded.Event (_ : ClientLoaded) : Event := EventClientLoaded

/-- Method `func (s SessionInfo) Event() Event` -/
def SessionInfo.Event (s : SessionInfo) : Event := s.event

/-- A call of `Event()` through the interface: the method of the dynamic type. -/
def Message.Event : Message → Event
  | .ServerError v => ServerError.Event v
  | .LapCompleted v => LapCompleted.Event v
  | .CollisionWithCar v => CollisionWithCar.Event v
  | .CollisionWithEnvironment v => CollisionWithEnvironment.Event v
  | .SessionCarInfo v => SessionCarInfo.Event v
  | .Chat v => Chat.Event v
  | .CarInfo v => CarInfo.Event v
  | .CarUpdate v => CarUpdate.Event v
  | .EndSession v => EndSession.Event v
  | .Version v => Version.Event v
  | .ClientLoaded v => ClientLoaded.Event v
  | .SessionInfo v => SessionInfo.Event v

/-- The concrete types that implement `Message`. -/
inductive Variant where
  | ServerError | LapCompleted | CollisionWithCar | CollisionWithEnvironment
  | SessionCarInfo | Chat | CarInfo | CarUpdate | EndSession | Version
  | ClientLoaded | SessionInfo
  deriving DecidableEq, Repr, Fintype

/-- The concrete type of a message. -/
def Message.variant : Message → Variant
  | .ServerError _ => .ServerError
  | .LapCompleted _ => .LapCompleted
  | .CollisionWithCar _ => .CollisionWithCar
  | .CollisionWithEnvironment _ => .CollisionWithEnvironment
  | .SessionCarInfo _ => .SessionCarInfo
  | .Chat _ => .Chat
  | .CarInfo _ => .CarInfo
  | .CarUpdate _ => .CarUpdate
  | .EndSession _ => .EndSession
  | .Version _ => .Version
  | .ClientLoaded _ => .ClientLoaded
  | .SessionInfo _ => .SessionInfo

/-- A variant reports tag `t` for every one of its values. -/
def Variant.alwaysReports (v : Variant) (t : Event) : Prop :=
  ∀ m : Message, m.variant = v → m.Event = t

/-- A fixed-tag variant: all its values report one and the same tag. -/
def Variant.isFixedTag (v : Variant) : Prop := ∃ t : Event, v.alwaysReports t

/-- The tag a variant's `Event` method returns as a constant, if it does. -/
def Variant.fixedTag? : Variant → Option Event
  | .ServerError => some EventError
  | .LapCompleted => some EventLapCompleted
  | .CollisionWithCar => some EventCollisionWithCar
  | .CollisionWithEnvironment => some EventCollisionWithEnv
  | .SessionCarInfo => none
  | .Chat => some EventChat
  | .CarInfo => some EventCarInfo
  | .CarUpdate => some EventCarUpdate
  | .EndSession => some EventEndSession
  | .Version => some EventVersion
  | .ClientLoaded => some EventClientLoaded
  | .SessionInfo => none

/-- A value of each variant, carrying tag `e` where the variant has a tag field. -/
def Variant.sample (e : Event) : Variant → Message
  | .ServerError => .ServerError ⟨none⟩
  | .LapCompleted => .LapCompleted ⟨⟨0, 0, 0, 0⟩, []⟩
  | .CollisionWithCar => .CollisionWithCar ⟨0, 0, 0, ⟨0, 0, 0⟩, ⟨0, 0, 0⟩⟩
  | .CollisionWithEnvironment => .CollisionWithEnvironment ⟨0, 0, ⟨0, 0, 0⟩, ⟨0, 0, 0⟩⟩
  | .SessionCarInfo => .SessionCarInfo { SessionCarInfo.zero with event := e }
  | .Chat => .Chat ⟨0, ""⟩
  | .CarInfo => .CarInfo ⟨0, false, "", "", "", "", ""⟩
  | .CarUpdate => .CarUpdate ⟨0, ⟨0, 0, 0⟩, ⟨0, 0, 0⟩, 0, 0, 0⟩
  | .EndSession => .EndSession ""
  | .Version => .Version 0
  | .ClientLoaded => .ClientLoaded 0
  | .SessionInfo => .SessionInfo { SessionInfo.zero with event := e }

/-! ## The decoder's LapCompleted path -/

/-- One byte of a datagram. -/
abbrev Byte := Fin 256

/-- Modelled from the spec: the byte order of the multi-byte fields; the wire layout (§6)
fixes their widths and leaves the order open, so the decoder takes it as an argument. -/
inductive ByteOrder where
  | little
  | big
  deriving DecidableEq, Repr

/-- Modelled from the spec: the unsigned number a run of bytes stands for (`u8`, `u16`,
`u32` of §6); the decoder is not among the source files. -/
def ByteOrder.toNat : ByteOrder → List Byte → Nat
  | .little, bs => bs.foldr (fun b acc => b.val + 256 * acc) 0
  | .big, bs => bs.foldl (fun acc b => 256 * acc + b.val) 0

/-- Modelled from the spec: the typed outcomes of a failed decode (§4.2); the decoder is not
among the source files. -/
inductive DecodeError where
  | ErrUnknownEvent (tag : Nat) (raw : List Byte)
  | ErrTruncatedMessage
  | ErrCountMismatch
  deriving DecidableEq, Repr

/-- Modelled from the spec: a left-to-right read of an unsigned field of `width` bytes, which
never reads past the buffer end (`none` when fewer than `width` bytes remain); returns the
value and the unread rest. The decoder is not among the source files. -/
def readUint (bo : ByteOrder) (width : Nat) (raw : List Byte) : Option (Nat × List Byte) :=
  if width ≤ raw.length then some (bo.toNat (raw.take width), raw.drop width) else none

/-- Modelled from the spec: the LapCompleted header record
`CarID:u8, LapTime:u32, Cuts:u8, CarsCount:u8`; the decoder is not among the source files. -/
def readLapCompletedInternal (bo : ByteOrder) (raw : List Byte) :
    Option (LapCompletedInternal × List Byte) := do
  let (carID, r1) ← readUint bo 1 raw
  let (lapTime, r2) ← readUint bo 4 r1
  let (cuts, r3) ← readUint bo 1 r2
  let (carsCount, r4) ← readUint bo 1 r3
  pure ({ CarID := carID, LapTime := lapTime, Cuts := cuts, CarsCount := carsCount }, r4)

/-- Modelled from the spec: one per-car sub-record
`CarID:u8, LapTime:u32, Laps:u16, Completed:u8`; the decoder is not among the source files. -/
def readLapCompletedCar (bo : ByteOrder) (raw : List Byte) :
    Option (LapCompletedCar × List Byte) := do
  let (carID, r1) ← readUint bo 1 raw
  let (lapTime, r2) ← readUint bo 4 r1
  let (laps, r3) ← readUint bo 2 r2
  let (completed, r4) ← readUint bo 1 r3
  pure ({ CarID := carID, LapTime := lapTime, Laps := laps, Completed := completed }, r4)

/-- Modelled from the spec: decodes sub-records in sequence order, up to `n` of them, and
stops when the buffer is exhausted; the decoder is not among the source files. -/
def readCars (bo : ByteOrder) : Nat → List Byte → List LapCompletedCar
  | 0, _ => []
  | n + 1, raw =>
    match readLapCompletedCar bo raw with
    | none => []
    | some (car, rest) => car :: readCars bo n rest

/-- Modelled from the spec: the Decoder's path for the LapCompleted aggregate (§4.2, layout
of §6): the header, then exactly `CarsCount` sub-records; a buffer too short for the header
is `ErrTruncatedMessage`, a declared count that the decoded records do not reach is
`ErrCountMismatch`. The decoder is not among the source files. -/
def decodeLapCompleted (bo : ByteOrder) (raw : List Byte) : Except DecodeError LapCompleted :=
  match readLapCompletedInternal bo raw with
  | none => .error .ErrTruncatedMessage
  | some (hdr, rest) =>
    let cars := readCars bo hdr.CarsCount rest
    if cars.length = hdr.CarsCount then
      .ok { toLapCompletedInternal := hdr, Cars := cars }
    else
      .error .ErrCountMismatch

/-! ## The decoder's SessionInfo / SessionCarInfo path -/

/-- Modelled from the spec: the receive context of a datagram that carries a session shape
(§3, and "tag supplied by receive context" in §6): the process is announcing a new
session, or it is answering a session-info query. The decoder and its callers are not
among the source files. -/
inductive SessionContext where
  | NewSession
  | SessionInfo
  deriving DecidableEq, Repr

/-- Modelled from the spec: the tag under which a datagram of that receive context is
received (§3, §4.2); the decoder is not among the source files. -/
def SessionContext.tag : SessionContext → Event
  | .NewSession => EventNewSession
  | .SessionInfo => EventSessionInfo

/-- Modelled from the spec: a length-prefixed string (§4.1), a single length byte followed
by that many encoded-text bytes, never read past the buffer end; `text` turns the encoded
bytes into the string, the encoding being left open by the spec. The decoder is not among
the source files. -/
def readStr (text : List Byte → String) (raw : List Byte) : Option (String × List Byte) :=
  match raw with
  | [] => none
  | n :: rest =>
    if n.val ≤ rest.length then some (text (rest.take n.val), rest.drop n.val) else none

/-- Modelled from the spec: a signed 32-bit field (`i32` of §6), the two's complement
reading of four bytes; the decoder is not among the source files. -/
def readInt32 (bo : ByteOrder) (raw : List Byte) : Option (Int × List Byte) :=
  match readUint bo 4 raw with
  | none => none
  | some (v, rest) => some (if v < 2 ^ 31 then (v : Int) else (v : Int) - 2 ^ 32, rest)

/-- Modelled from the spec: the first four fields of the row `SessionInfo/NewSession` of §6,
`Version:u8, SessionIndex:u8, CurrentSessionIndex:u8, SessionCount:u8`, and the unread
rest. The decoder is not among the source files. -/
def readSessionIndices (bo : ByteOrder) (raw : List Byte) :
    Option ((Nat × Nat × Nat × Nat) × List Byte) :=
  (readUint bo 1 raw).bind fun version =>
  (readUint bo 1 version.2).bind fun sessionIndex =>
  (readUint bo 1 sessionIndex.2).bind fun currentSessionIndex =>
  (readUint bo 1 currentSessionIndex.2).bind fun sessionCount =>
  some ((version.1, sessionIndex.1, currentSessionIndex.1, sessionCount.1), sessionCount.2)

/-- Modelled from the spec: the next four fields of the row,
`ServerName:str, Track:str, TrackConfig:str, Name:str`, and the unread rest. The decoder is
not among the source files. -/
def readSessionNames (text : List Byte → String) (raw : List Byte) :
    Option ((String × String × String × String) × List Byte) :=
  (readStr text raw).bind fun serverName =>
  (readStr text serverName.2).bind fun track =>
  (readStr text track.2).bind fun trackConfig =>
  (readStr text trackConfig.2).bind fun name =>
  some ((serverName.1, track.1, trackConfig.1, name.1), name.2)

/-- Modelled from the spec: the next four fields of the row,
`Type:u8, Time:u16, Laps:u16, WaitTime:u16`, and the unread rest. The decoder is not among
the source files. -/
def readSessionLimits (bo : ByteOrder) (raw : List Byte) :
    Option ((Nat × Nat × Nat × Nat) × List Byte) :=
  (readUint bo 1 raw).bind fun type =>
  (readUint bo 2 type.2).bind fun time =>
  (readUint bo 2 time.2).bind fun laps =>
  (readUint bo 2 laps.2).bind fun waitTime =>
  some ((type.1, time.1, laps.1, waitTime.1), waitTime.2)

/-- Modelled from the spec: the last four fields of the row,
`AmbientTemp:u8, RoadTemp:u8, WeatherGraphics:str, ElapsedMilliseconds:i32`, and the unread
rest. The decoder is not among the source files. -/
def readSessionWeather (bo : ByteOrder) (text : List Byte → String) (raw : List Byte) :
    Option ((Nat × Nat × String × Int) × List Byte) :=
  (readUint bo 1 raw).bind fun ambientTemp =>
  (readUint bo 1 ambientTemp.2).bind fun roadTemp =>
  (readStr text roadTemp.2).bind fun weatherGraphics =>
  (readInt32 bo weatherGraphics.2).bind fun elapsedMilliseconds =>
  some ((ambientTemp.1, roadTemp.1, weatherGraphics.1, elapsedMilliseconds.1),
    elapsedMilliseconds.2)

/-- Modelled from the spec: the payload shape of the row `SessionInfo/NewSession` of §6,
read left to right in field order; no byte of the payload is a tag, so the `event` field
is left at the zero value here. The decoder is not among the source files. -/
def readSessionInfo (bo : ByteOrder) (text : List Byte → String) (raw : List Byte) :
    Option SessionInfo :=
  (readSessionIndices bo raw).bind fun indices =>
  (readSessionNames text indices.2).bind fun names =>
  (readSessionLimits bo names.2).bind fun limits =>
  (readSessionWeather bo text limits.2).bind fun weather =>
  some { Version := indices.1.1, SessionIndex := indices.1.2.1,
         CurrentSessionIndex := indices.1.2.2.1, SessionCount := indices.1.2.2.2,
         ServerName := names.1.1, Track := names.1.2.1, TrackConfig := names.1.2.2.1,
         Name := names.1.2.2.2, Type_ := limits.1.1, Time := limits.1.2.1,
         Laps := limits.1.2.2.1, WaitTime := limits.1.2.2.2,
         AmbientTemp := weather.1.1, RoadTemp := weather.1.2.1,
         WeatherGraphics := weather.1.2.2.1, ElapsedMilliseconds := weather.1.2.2.2,
         event := 0 }

/-- Modelled from the spec: the Decoder's path for a `SessionInfo` (§4.2): it decodes the
payload shape, then stamps the decoded value's tag from `contextHint`, the tag under which
the datagram was received, not from any byte of the payload; a buffer shorter than the
layout is `ErrTruncatedMessage`. The decoder is not among the source files. -/
def decodeSessionInfo (bo : ByteOrder) (text : List Byte → String)
    (contextHint : SessionContext) (raw : List Byte) : Except DecodeError SessionInfo :=
  match readSessionInfo bo text raw with
  | none => .error .ErrTruncatedMessage
  | some payload => .ok { payload with event := contextHint.tag }

/-- Modelled from the spec: the Decoder's path for a `SessionCarInfo` (§4.2): it decodes the
payload shape, then stamps the decoded value's tag from `contextHint`. §6 has no row for
this shape, so the read of its payload is the argument `readPayload` (`none` when the
buffer is too short). The decoder is not among the source files. -/
def decodeSessionCarInfo (readPayload : List Byte → Option SessionCarInfo)
    (contextHint : SessionContext) (raw : List Byte) : Except DecodeError SessionCarInfo :=
  match readPayload raw with
  | none => .error .ErrTruncatedMessage
  | some payload => .ok { payload with event := contextHint.tag }

/-- A text decoding for the examples: one character per byte. -/
def exampleText (bs : List Byte) : String := String.mk (bs.map (fun b => Char.ofNat b.val))

/-- A payload read of `SessionCarInfo` for the examples: the fields in the order the
struct declares them, `CarID:u8` and four strings. -/
def exampleReadSessionCarInfo (raw : List Byte) : Option SessionCarInfo := do
  let (carID, r1) ← readUint .little 1 raw
  let (driverName, r2) ← readStr exampleText r1
  let (driverGUID, r3) ← readStr exampleText r2
  let (carMode, r4) ← readStr exampleText r3
  let (carSkin, _) ← readStr exampleText r4
  pure { CarID := carID, DriverName := driverName, DriverGUID := driverGUID,
         CarMode := carMode, CarSkin := carSkin, event := 0 }

/-- A session datagram body for the examples: version 4, one session, server `ac`, track
`spa`, session `Race` of type 3, 5 laps, wait time 60, 26 and 32 degrees, weather `x`. -/
def exampleSessionBytes : List Byte :=
  [4, 0, 0, 1, 2, 97, 99, 3, 115, 112, 97, 0, 4, 82, 97, 99, 101, 3, 0, 0, 5, 0, 60, 0,
   26, 32, 1, 120, 0, 0, 0, 0]

/-- A session-car datagram body for the examples: car 7, driver `Al`, GUID `1`, model
`gt`, skin `r`. -/
def exampleSessionCarBytes : List Byte :=
  [7, 2, 65, 108, 1, 49, 2, 103, 116, 1, 114]

end Udp

namespace ServerManager

/-! ## race_manager.go -/

/-- A non-nil Go `error` value. `ErrBucketNotFound` is `bbolt.ErrBucketNotFound`,
`ErrCustomRaceNotFound` the package variable of that name, `New text` a value made by
`errors.New(text)`, and `Other text` any other error handed back by a callee. -/
inductive Err where
  | ErrBucketNotFound
  | ErrCustomRaceNotFound
  | New (text : String)
  | Other (text : String)
  deriving DecidableEq

/-- A Go `error`: `none` is `nil`. -/
abbrev error := Option Err

/-- A `time.Time`, kept as its instant; `After` compares instants. -/
abbrev Time := Int

/-- Method `func (t Time) After(u Time) bool` -/
def Time.After (t u : Time) : Bool := decide (u < t)

/-- A `uuid.UUID`. -/
abbrev UUID := Nat

/-- The session kinds named in the file (`SessionTypeQualifying`, `SessionTypeRace`); any
further kind of `AvailableSessions` is `Other`. -/
inductive SessionType where
  | SessionTypeQualifying
  | SessionTypeRace
  | Other (name : String)
  deriving DecidableEq

/-- The fields of `SessionConfig` the file sets. -/
structure SessionConfig where
  Name : String := ""
  Time : Int := 0
  Laps : Int := 0
  IsOpen : Int := 0
  WaitTime : Int := 0
  deriving DecidableEq

/-- The fields of `DynamicTrackConfig` that `SetupCustomRace` sets. -/
structure DynamicTrackConfig where
  SessionStart : Int := 0
  Randomness : Int := 0
  SessionTransfer : Int := 0
  LapGain : Int := 0
  deriving DecidableEq

/-- The fields of `CurrentRaceConfig` named in the file (the struct is declared in another
file; the weather entries behind `AddWeather` are not named in the file and are left out).
`Sessions` is the map `map[SessionType]SessionConfig`, kept as its list of bindings. A
field left out of a composite literal has its zero value. -/
structure CurrentRaceConfig where
  -- general race config
  Cars : String := ""
  Track : String := ""
  TrackLayout : String := ""
  -- assists
  ABSAllowed : Int := 0
  TractionControlAllowed : Int := 0
  StabilityControlAllowed : Int := 0
  AutoClutchAllowed : Int := 0
  TyreBlanketsAllowed : Int := 0
  -- weather
  SunAngle : Int := 0
  WindBaseSpeedMin : Int := 0
  WindBaseSpeedMax : Int := 0
  WindBaseDirection : Int := 0
  WindVariationDirection : Int := 0
  -- realism
  LegalTyres : String := ""
  FuelRate : Int := 0
  DamageMultiplier : Int := 0
  TyreWearRate : Int := 0
  ForceVirtualMirror : Int := 0
  TimeOfDayMultiplier : Int := 0
  DynamicTrack : DynamicTrackConfig := {}
  -- rules
  LockedEntryList : Int := 0
  RacePitWindowStart : Int := 0
  RacePitWindowEnd : Int := 0
  ReversedGridRacePositions : Int := 0
  QualifyMaxWaitPercentage : Int := 0
  RaceGasPenaltyDisabled : Int := 0
  MaxBallastKilograms : Int := 0
  AllowedTyresOut : Int := 0
  PickupModeEnabled : Int := 0
  LoopMode : Int := 0
  SleepTime : Int := 0
  RaceOverTime : Int := 0
  StartRule : Int := 0
  Sessions : List (SessionType × SessionConfig) := []
  deriving DecidableEq

/-- The fields of `GlobalServerConfig` the package's files at hand read. -/
structure GlobalServerConfig where
  MaxClients : Int
  Password : String
  ShowContentManagerJoinLink : Int
  deriving DecidableEq

structure ServerConfig where
  GlobalServerConfig : GlobalServerConfig
  CurrentRaceConfig : CurrentRaceConfig
  deriving DecidableEq

/-- The fields of `Entrant` set by `SetupCustomRace` and `SetupQuickRace`; a field left out
of a composite literal has its zero value. -/
structure Entrant where
  Name : String := ""
  Team : String := ""
  GUID : String := ""
  Model : String := ""
  Skin : String := ""
  SpectatorMode : Int := 0
  Ballast : Int := 0
  Restrictor : Int := 0
  deriving DecidableEq

/-- An `EntryList`. The type is declared in another file and is used here through
`EntryList{}`, `Add`, `len` and `range` only; it is kept as the sequence of entrants in the
order they were added, which is the order a `range` loop is taken to visit them in. -/
abbrev EntryList := List Entrant

/-- The call `entryList.Add(entrant)`: the entry list afterwards. -/
def EntryList.Add (e : EntryList) (entrant : Entrant) : EntryList := e ++ [entrant]

structure CustomRace where
  Name : String
  Created : Time
  UUID : UUID
  Starred : Bool
  RaceConfig : CurrentRaceConfig
  EntryList : EntryList
  deriving DecidableEq

/-- Functions and variables the file uses and that are declared elsewhere (other files of
the package, the standard library). -/
structure Externals where
  /-- Method `func (c *CurrentRaceConfig) AddSession(t, sess)`: the receiver after the call. -/
  AddSession : CurrentRaceConfig → SessionType → SessionConfig → CurrentRaceConfig
  /-- The call `strconv.ParseInt(s, 10, 0)`. -/
  ParseInt : String → Except Err Int
  prettifyName : String → Bool → String
  carList : String → String
  AvailableSessions : List SessionType

/-- An `*http.Request`, as far as the file looks at it: whether `ParseForm` fails, the
parsed `r.Form`, and `r.URL.Query()`. -/
structure Request where
  ParseForm : error
  Form : String → List String
  Query : String → List String

/-- The method `url.Values.Get`: the first value of the key, or the empty string. -/
def Values.Get (v : String → List String) (key : String) : String := (v key).headD ""

/-- What the host does when the file calls out of itself while applying a configuration:
the outcomes of `config.Write()`, `entryList.Write()`, `AssettoProcess.IsRunning()`,
`AssettoProcess.Restart()` and `AssettoProcess.Start()`. -/
structure Host where
  ConfigWrite : ServerConfig → error
  EntryListWrite : EntryList → error
  IsRunning : Bool
  Restart : error
  Start : error

/-- The calls made out of the file while applying a configuration, in order. -/
inductive Effect where
  | ConfigWrite (config : ServerConfig)
  | EntryListWrite (entryList : EntryList)
  | Restart
  | Start
  deriving DecidableEq

/-- The `RaceManager` fields other than the store handle. -/
structure RaceManager where
  currentRace : Option ServerConfig
  deriving DecidableEq

/-- Method `func (rm *RaceManager) applyConfigAndStart(config ServerConfig, entryList EntryList) error`:
the returned error, the manager afterwards, and the calls made. -/
def applyConfigAndStart (h : Host) (rm : RaceManager) (config : ServerConfig)
    (entryList : EntryList) : error × RaceManager × List Effect :=
  match h.ConfigWrite config with
  | some err => (some err, rm, [.ConfigWrite config])
  | none =>
    match h.EntryListWrite entryList with
    | some err => (some err, rm, [.ConfigWrite config, .EntryListWrite entryList])
    | none =>
      let rm1 : RaceManager := { rm with currentRace := some config }
      if h.IsRunning then
        (h.Restart, rm1, [.ConfigWrite config, .EntryListWrite entryList, .Restart])
      else
        match h.Start with
        | some err => (some err, rm1, [.ConfigWrite config, .EntryListWrite entryList, .Start])
        | none => (none, rm1, [.ConfigWrite config, .EntryListWrite entryList, .Start])

/-- The loop of `SetupQuickRace`, from counter value `i` on:
`for ; i < MaxClients; i++ { entryList.Add(Entrant{Model: cars[i%len(cars)]}) }`.
`none` is a run-time panic (division by zero, or index out of range). -/
def fillEntryList (cars : List String) (maxClients : Int) (i : Nat) (entryList : EntryList) :
    Option EntryList :=
  if (i : Int) < maxClients then
    if cars.length = 0 then none
    else
      match cars[i % cars.length]? with
      | none => none
      | some model => fillEntryList cars maxClients (i + 1) (entryList.Add { Model := model })
  else some entryList
termination_by (maxClients - i).toNat
decreasing_by omega

/-- What a call of `SetupQuickRace` leaves behind: the returned error, the entrants added to
the local entry list by the time of the return, the manager, and the calls made out of the
file. -/
structure QuickRaceResult where
  err : error
  entryList : EntryList
  rm : RaceManager
  effects : List Effect
  deriving DecidableEq

/-- Method `func (rm *RaceManager) SetupQuickRace(r *http.Request) error`, with the package
variable `ConfigIniDefault` as an argument. `none` is a run-time panic. -/
def SetupQuickRace (ext : Externals) (h : Host) (ConfigIniDefault : ServerConfig)
    (rm : RaceManager) (r : Request) : Option QuickRaceResult :=
  match r.ParseForm with
  | some err => some { err := some err, entryList := [], rm := rm, effects := [] }
  | none =>
    -- load default config values
    let quickRace := ConfigIniDefault
    let cars := r.Form "Cars"
    let quickRace := { quickRace with CurrentRaceConfig :=
      { quickRace.CurrentRaceConfig with Cars := String.intercalate ";" cars } }
    let quickRace := { quickRace with CurrentRaceConfig :=
      { quickRace.CurrentRaceConfig with Track := Values.Get r.Form "Track" } }
    let quickRace := { quickRace with CurrentRaceConfig :=
      { quickRace.CurrentRaceConfig with TrackLayout := Values.Get r.Form "TrackLayout" } }
    let quickRace := { quickRace with CurrentRaceConfig :=
      { quickRace.CurrentRaceConfig with Sessions := [] } }
    match ext.ParseInt (Values.Get r.Form "Qualifying.Time") with
    | .error err => some { err := some err, entryList := [], rm := rm, effects := [] }
    | .ok qualifyingTime =>
      let quickRace := { quickRace with CurrentRaceConfig :=
        (ext.AddSession quickRace.CurrentRaceConfig SessionType.SessionTypeQualifying
          { Name := "Qualify", Time := qualifyingTime, IsOpen := 1 }) }
      match ext.ParseInt (Values.Get r.Form "Race.Time") with
      | .error err => some { err := some err, entryList := [], rm := rm, effects := [] }
      | .ok raceTime =>
        match ext.ParseInt (Values.Get r.Form "Race.Laps") with
        | .error err => some { err := some err, entryList := [], rm := rm, effects := [] }
        | .ok raceLaps =>
          let quickRace := { quickRace with CurrentRaceConfig :=
            (ext.AddSession quickRace.CurrentRaceConfig SessionType.SessionTypeRace
              { Name := "Race", Time := raceTime, Laps := raceLaps, IsOpen := 1,
                WaitTime := 60 }) }
          if cars.length = 0 then
            some { err := some (.New "you must submit a car"), entryList := [], rm := rm,
                   effects := [] }
          else
            match fillEntryList cars quickRace.GlobalServerConfig.MaxClients 0 [] with
            | none => none
            | some entryList =>
              let (err, rm1, effects) := applyConfigAndStart h rm quickRace entryList
              some { err := err, entryList := entryList, rm := rm1, effects := effects }

/-- The race store, as far as the file calls it, over a store state `σ`. The two upserts
return their error and the state they leave; the reads return `(value, err)`. -/
structure RaceStore (σ : Type) where
  UpsertEntrant : σ → Entrant → error × σ
  UpsertCustomRace : σ → CustomRace → error × σ
  FindCustomRaceByID : σ → String → Except Err CustomRace
  ListEntrants : σ → Except Err (List Entrant)
  ListCustomRaces : σ → List CustomRace × error

/-- The writes made to the store, in order, each with the error it returned. -/
inductive StoreCall where
  | UpsertEntrant (entrant : Entrant) (result : error)
  | UpsertCustomRace (race : CustomRace) (result : error)
  deriving DecidableEq

/-- The error a store write returned. -/
def StoreCall.result : StoreCall → error
  | .UpsertEntrant _ r => r
  | .UpsertCustomRace _ r => r

/-- The entrant of an `UpsertEntrant` call. -/
def StoreCall.entrant? : StoreCall → Option Entrant
  | .UpsertEntrant e _ => some e
  | .UpsertCustomRace _ _ => none

/-- Whether the call is an `UpsertCustomRace`. -/
def StoreCall.isUpsertCustomRace : StoreCall → Bool
  | .UpsertEntrant _ _ => false
  | .UpsertCustomRace _ _ => true

/-- The `range entryList` loop of `SaveCustomRace` over the entrants still to visit:
the error it returns with (`none` when it runs to its end), the store state and the calls
made, appended to `log`. -/
def saveEntrants {σ : Type} (store : RaceStore σ) :
    List Entrant → σ → List StoreCall → error × σ × List StoreCall
  | [], s, log => (none, s, log)
  | entrant :: rest, s, log =>
    if entrant.Name = "" then
      saveEntrants store rest s log -- only save entrants that have a name
    else
      match store.UpsertEntrant s entrant with
      | (some err, s1) => (some err, s1, log ++ [.UpsertEntrant entrant (some err)])
      | (none, s1) => saveEntrants store rest s1 (log ++ [.UpsertEntrant entrant none])

/-- Method `func (rm *RaceManager) SaveCustomRace(name, config, entryList, starred) error`, with the
values of `time.Now()` and `uuid.New()` as arguments: the returned error, the store state
afterwards and the store writes made. -/
def SaveCustomRace {σ : Type} (ext : Externals) (store : RaceStore σ) (now : Time)
    (newUUID : UUID) (name : String) (config : CurrentRaceConfig) (entryList : EntryList)
    (starred : Bool) (s : σ) : error × σ × List StoreCall :=
  let name :=
    if name = "" then
      ext.prettifyName config.Track false ++ " (" ++ ext.prettifyName config.TrackLayout true
        ++ ") in " ++ ext.carList config.Cars ++ " (" ++ toString entryList.length
        ++ " entrants)"
    else name
  match saveEntrants store entryList s [] with
  | (some err, s1, log) => (some err, s1, log)
  | (none, s1, log) =>
    let race : CustomRace :=
      { Name := name, Created := now, UUID := newUUID, Starred := starred,
        RaceConfig := config, EntryList := entryList }
    let (err, s2) := store.UpsertCustomRace s1 race
    (err, s2, log ++ [.UpsertCustomRace race err])

/-- A track as `BuildRaceOpts` reads it. -/
structure Track where
  Name : String
  Layouts : List String
  deriving DecidableEq

/-- The content listings `BuildRaceOpts` asks for (`ListCars`, `ListTracks`, `ListTyres`,
`ListWeather`, and `cars.AsMap()`), declared in other files. -/
structure Content (Cars CarOpts Tyres Weather : Type) where
  ListCars : Except Err Cars
  AsMap : Cars → CarOpts
  ListTracks : Except Err (List Track)
  ListTyres : Except Err Tyres
  ListWeather : Except Err Weather

/-- The map `BuildRaceOpts` returns, one field per key. -/
structure RaceOpts (CarOpts Tyres Weather : Type) where
  CarOpts : CarOpts
  TrackOpts : List String
  TrackLayoutOpts : List String
  MaxClients : Int
  AvailableSessions : List SessionType
  Tyres : Tyres
  Weather : Weather
  Current : CurrentRaceConfig
  CurrentEntrants : EntryList
  PossibleEntrants : List Entrant

/-- The first loop over `tracks`: the layouts of one track, appended to `trackLayouts`. -/
def appendLayouts (track : Track) (trackLayouts : List String) : List String :=
  track.Layouts.foldl (fun acc layout => acc ++ [track.Name ++ ":" ++ layout]) trackLayouts

/-- The loop `for _, track := range tracks`: `(trackNames, trackLayouts)`. -/
def collectTracks (tracks : List Track) : List String × List String :=
  tracks.foldl (fun acc track => (acc.1 ++ [track.Name], appendLayouts track acc.2)) ([], [])

/-- The loop that marks the current track layout: the first layout equal to `current` gets
`:current` appended, and the loop breaks. -/
def markCurrent (current : String) : List String → List String
  | [] => []
  | layout :: rest =>
    if layout = current then (layout ++ ":current") :: rest
    else layout :: markCurrent current rest

/-- Method `func (rm *RaceManager) BuildRaceOpts(r *http.Request) (map[string]interface{}, error)`.
The package variable `ConfigIniDefault` is passed in, and its value when the function
returns is the second component of the result: `race` is `&ConfigIniDefault`, so a write
through `race` is a write to the variable. -/
def BuildRaceOpts {σ Cars CarOpts Tyres Weather : Type} (ext : Externals)
    (content : Content Cars CarOpts Tyres Weather) (store : RaceStore σ) (s : σ)
    (ConfigIniDefault : ServerConfig) (r : Request) :
    Except Err (RaceOpts CarOpts Tyres Weather) × ServerConfig :=
  match content.ListCars with
  | .error err => (.error err, ConfigIniDefault)
  | .ok cars =>
    match content.ListTracks with
    | .error err => (.error err, ConfigIniDefault)
    | .ok tracks =>
      match content.ListTyres with
      | .error err => (.error err, ConfigIniDefault)
      | .ok tyres =>
        match content.ListWeather with
        | .error err => (.error err, ConfigIniDefault)
        | .ok weather =>
          let templateID := Values.Get r.Query "from"
          let loaded : Except Err (ServerConfig × EntryList) :=
            if templateID ≠ "" then
              -- load a from a custom race template
              match store.FindCustomRaceByID s templateID with
              | .error err => .error err
              | .ok customRace =>
                .ok ({ ConfigIniDefault with CurrentRaceConfig := customRace.RaceConfig },
                     customRace.EntryList)
            else .ok (ConfigIniDefault, [])
          match loaded with
          | .error err => (.error err, ConfigIniDefault)
          | .ok (race, entrants) =>
            let (trackNames, trackLayouts) := collectTracks tracks
            let trackLayouts :=
              markCurrent (race.CurrentRaceConfig.Track ++ ":" ++ race.CurrentRaceConfig.TrackLayout)
                trackLayouts
            match store.ListEntrants s with
            | .error err => (.error err, race)
            | .ok possibleEntrants =>
              (.ok { CarOpts := content.AsMap cars, TrackOpts := trackNames,
                     TrackLayoutOpts := trackLayouts,
                     MaxClients := race.GlobalServerConfig.MaxClients,
                     AvailableSessions := ext.AvailableSessions, Tyres := tyres,
                     Weather := weather, Current := race.CurrentRaceConfig,
                     CurrentEntrants := entrants, PossibleEntrants := possibleEntrants },
               race)

def maxRecentRaces : Nat := 30

/-- The loop of `ListCustomRaces` that splits the sorted races:
`(starred, filteredRecent)` after visiting the races still to come. -/
def splitStarred :
    List CustomRace → List CustomRace → List CustomRace → List CustomRace × List CustomRace
  | [], starred, filteredRecent => (starred, filteredRecent)
  | race :: rest, starred, filteredRecent =>
    if race.Starred then splitStarred rest (starred ++ [race]) filteredRecent
    else splitStarred rest starred (filteredRecent ++ [race])

/-- Method `func (rm *RaceManager) ListCustomRaces() (recent, starred []CustomRace, err error)`.
`sortSlice x less` is the slice `x` after `sort.Slice(x, less)`; a nil slice is `[]`. -/
def ListCustomRaces {σ : Type}
    (sortSlice : List CustomRace → (CustomRace → CustomRace → Bool) → List CustomRace)
    (store : RaceStore σ) (s : σ) : List CustomRace × List CustomRace × error :=
  match store.ListCustomRaces s with
  | (_, some .ErrBucketNotFound) => ([], [], none)
  | (_, some err) => ([], [], some err)
  | (recent, none) =>
    let recent := sortSlice recent (fun a b => Time.After a.Created b.Created)
    let (starred, filteredRecent) := splitStarred recent [] []
    let filteredRecent :=
      if filteredRecent.length > maxRecentRaces then filteredRecent.take maxRecentRaces
      else filteredRecent
    (filteredRecent, starred, none)

/-- The configuration handed to `config.Write()` during a call of `SetupQuickRace`, if the
call got that far. -/
def writtenConfig (res : Option QuickRaceResult) : Option ServerConfig :=
  match res with
  | some { effects := .ConfigWrite config :: _, .. } => some config
  | _ => none

/-! ## Concrete values for the worked examples -/

/-- Externals for the examples: `AddSession` is the map assignment `c.Sessions[t] = sess`,
`ParseInt` knows the numerals the example forms use. -/
def exampleExt : Externals where
  AddSession := fun c t sess =>
    { c with Sessions := c.Sessions.filter (fun b => b.1 ≠ t) ++ [(t, sess)] }
  ParseInt := fun s =>
    match s with
    | "0" => .ok 0
    | "5" => .ok 5
    | "10" => .ok 10
    | _ => .error (.Other "strconv.ParseInt: invalid syntax")
  prettifyName := fun s _ => s
  carList := fun s => s
  AvailableSessions := [.SessionTypeQualifying, .SessionTypeRace]

/-- A host on which every write succeeds and the server is not yet running. -/
def exampleHost : Host where
  ConfigWrite := fun _ => none
  EntryListWrite := fun _ => none
  IsRunning := false
  Restart := none
  Start := none

/-- A default configuration: three client slots, ABS off. -/
def exampleDefault : ServerConfig where
  GlobalServerConfig := { MaxClients := 3, Password := "", ShowContentManagerJoinLink := 0 }
  CurrentRaceConfig := { Cars := "ks_mazda_mx5_cup", Track := "ks_laguna_seca", ABSAllowed := 0 }

/-- A quick-race form with two cars. -/
def exampleQuickRaceForm : Request where
  ParseForm := none
  Form := fun key =>
    match key with
    | "Cars" => ["ks_mazda_mx5_cup", "ks_audi_r8_lms"]
    | "Track" => ["spa"]
    | "Qualifying.Time" => ["10"]
    | "Race.Time" => ["0"]
    | "Race.Laps" => ["5"]
    | _ => []
  Query := fun _ => []

/-- A quick-race form without a car. -/
def exampleFormWithoutCars : Request where
  ParseForm := none
  Form := fun key =>
    match key with
    | "Track" => ["spa"]
    | "Qualifying.Time" => ["10"]
    | "Race.Time" => ["0"]
    | "Race.Laps" => ["5"]
    | _ => []
  Query := fun _ => []

/-- Three entrants, the second without a name. -/
def exampleEntryList : EntryList :=
  [{ Name := "Ann", Model := "ks_mazda_mx5_cup" }, { Model := "ks_audi_r8_lms" },
   { Name := "Bob", Model := "ks_audi_r8_lms" }]

/-- A saved custom race with ABS allowed. -/
def exampleCustomRace : CustomRace where
  Name := "Spa sprint"
  Created := 1000
  UUID := 7
  Starred := true
  RaceConfig := { Cars := "ks_audi_r8_lms", Track := "spa", ABSAllowed := 1 }
  EntryList := exampleEntryList

/-- The races of the example store: one starred (created at 1000) and thirty-three that
are not, created at 10, at 2000, and at 100, 101, ..., 130. -/
def exampleRaces : List CustomRace :=
  [{ exampleCustomRace with Name := "old", Created := 10, UUID := 1, Starred := false },
   exampleCustomRace,
   { exampleCustomRace with Name := "new", Created := 2000, UUID := 2, Starred := false }] ++
  (List.range 31).map (fun i =>
    { exampleCustomRace with Name := "practice", Created := 100 + i, UUID := 100 + i,
                             Starred := false })

/-- A store without state: it knows the custom race `7`, lists the example races, and
fails to upsert an entrant named `Bob` when `failing` is set. -/
def exampleStore (failing : Bool) : RaceStore Unit where
  UpsertEntrant := fun s e =>
    if failing && e.Name = "Bob" then (some (.Other "bbolt: database not open"), s)
    else (none, s)
  UpsertCustomRace := fun s _ => (none, s)
  FindCustomRaceByID := fun _ id =>
    if id = "7" then .ok exampleCustomRace else .error .ErrCustomRaceNotFound
  ListEntrants := fun _ => .ok []
  ListCustomRaces := fun _ => (exampleRaces, none)

/-- A store whose listing of custom races fails with `err`. -/
def exampleBrokenStore (err : Err) : RaceStore Unit where
  UpsertEntrant := fun s _ => (some err, s)
  UpsertCustomRace := fun s _ => (some err, s)
  FindCustomRaceByID := fun _ _ => .error err
  ListEntrants := fun _ => .error err
  ListCustomRaces := fun _ => ([], some err)

/-- Content listings for the examples: one track with two layouts. -/
def exampleContent : Content Unit Unit Unit Unit where
  ListCars := .ok ()
  AsMap := fun _ => ()
  ListTracks := .ok [{ Name := "spa", Layouts := ["", "gp"] }]
  ListTyres := .ok ()
  ListWeather := .ok ()

/-- A request for the race form built from the custom race `7`: `?from=7`. -/
def exampleFromRequest : Request where
  ParseForm := none
  Form := fun _ => []
  Query := fun key =>
    match key with
    | "from" => ["7"]
    | _ => []

/-- A `sort.Slice` for the examples: insertion sort by `less`. -/
def exampleSortSlice (x : List CustomRace) (less : CustomRace → CustomRace → Bool) :
    List CustomRace :=
  x.insertionSort (fun a b => less b a = false)

end ServerManager

/-! # Properties -/

namespace Udp

theorem Variant.sample_variant (e : Event) (v : Variant) : (v.sample e).variant = v := by
  cases v <;> rfl

theorem Message.Event_of_fixedTag (m : Message) (t : Udp.Event)
    (h : m.variant.fixedTag? = some t) : m.Event = t := by
  cases m <;> simp [Message.variant, Variant.fixedTag?] at h <;> subst h <;> rfl

/-- A variant reports `t` for all its values exactly when its method returns the constant
`t`; the two variants with a tag field report no tag for all their values. -/
theorem Variant.alwaysReports_iff (v : Variant) (t : Event) :
    v.alwaysReports t ↔ v.fixedTag? = some t := by
  constructor
  · intro h
    have h0 := h (v.sample 0) (Variant.sample_variant 0 v)
    have h1 := h (v.sample 1) (Variant.sample_variant 1 v)
    cases v
    case SessionCarInfo =>
      have e0 : (0 : Int) = t := h0
      have e1 : (1 : Int) = t := h1
      omega
    case SessionInfo =>
      have e0 : (0 : Int) = t := h0
      have e1 : (1 : Int) = t := h1
      omega
    all_goals exact congrArg some h0
  · intro h m hm
    subst hm
    exact Message.Event_of_fixedTag m t h

/-- C5: the 26 `Event` constants are pairwise distinct; the inbound (Receive) tags are the
set {10, 11, 50, ..., 60, 73, 88, 130}, each of them is strictly less than every outbound
(Send) tag, and the outbound tags are exactly the integers 200..209. -/
theorem event_constants_distinct_and_ranged :
    allEvents.length = 26 ∧ allEvents.Nodup ∧
    (∀ e : Event, e ∈ receiveEvents ↔
      e ∈ [10, 11, 50, 51, 52, 53, 54, 55, 56, 57, 58, 59, 60, 73, 88, 130]) ∧
    (∀ r ∈ receiveEvents, ∀ s ∈ sendEvents, r < s) ∧
    sendEvents.length = 10 ∧
    (∀ e : Event, e ∈ sendEvents ↔ 200 ≤ e ∧ e ≤ 209) := by
  refine ⟨by decide, by decide, ?_, by decide, by decide, ?_⟩
  · intro e
    simp only [receiveEvents, List.mem_cons, List.mem_singleton, List.not_mem_nil, or_false]
    have key : ∀ x : Int,
        (x = 10 ∨ x = 11 ∨ x = 50 ∨ x = 51 ∨ x = 52 ∨ x = 53 ∨ x = 54 ∨ x = 55 ∨ x = 56 ∨
          x = 57 ∨ x = 58 ∨ x = 59 ∨ x = 60 ∨ x = 73 ∨ x = 130 ∨ x = 88) ↔
        (x = 10 ∨ x = 11 ∨ x = 50 ∨ x = 51 ∨ x = 52 ∨ x = 53 ∨ x = 54 ∨ x = 55 ∨ x = 56 ∨
          x = 57 ∨ x = 58 ∨ x = 59 ∨ x = 60 ∨ x = 73 ∨ x = 88 ∨ x = 130) := by
      intro x
      omega
    exact key e
  · intro e
    simp only [sendEvents, List.mem_cons, List.mem_singleton, List.not_mem_nil, or_false]
    have key : ∀ x : Int,
        (x = 200 ∨ x = 201 ∨ x = 202 ∨ x = 203 ∨ x = 204 ∨ x = 205 ∨ x = 206 ∨ x = 207 ∨
          x = 208 ∨ x = 209) ↔ 200 ≤ x ∧ x ≤ 209 := by
      intro x
      omega
    exact key e

/-- C3: `Event()` of every value of a fixed-tag variant is that variant's own constant,
whatever the field values are; `Event()` of a `SessionInfo` or `SessionCarInfo` value is the
tag attached to it, so replacing every payload field of a value while keeping the tag
leaves `Event()` the same. -/
theorem event_returns_the_carried_tag :
    (∀ v : ServerError, (Message.ServerError v).Event = EventError) ∧
    (∀ v : LapCompleted, (Message.LapCompleted v).Event = EventLapCompleted) ∧
    (∀ v : CollisionWithCar, (Message.CollisionWithCar v).Event = EventCollisionWithCar) ∧
    (∀ v : CollisionWithEnvironment,
      (Message.CollisionWithEnvironment v).Event = EventCollisionWithEnv) ∧
    (∀ v : Chat, (Message.Chat v).Event = EventChat) ∧
    (∀ v : CarInfo, (Message.CarInfo v).Event = EventCarInfo) ∧
    (∀ v : CarUpdate, (Message.CarUpdate v).Event = EventCarUpdate) ∧
    (∀ v : EndSession, (Message.EndSession v).Event = EventEndSession) ∧
    (∀ v : Version, (Message.Version v).Event = EventVersion) ∧
    (∀ v : ClientLoaded, (Message.ClientLoaded v).Event = EventClientLoaded) ∧
    (∀ s : SessionInfo, (Message.SessionInfo s).Event = s.event) ∧
    (∀ s : SessionCarInfo, (Message.SessionCarInfo s).Event = s.event) ∧
    (∀ s payload : SessionInfo,
      (Message.SessionInfo { payload with event := s.event }).Event =
        (Message.SessionInfo s).Event) ∧
    (∀ s payload : SessionCarInfo,
      (Message.SessionCarInfo { payload with event := s.event }).Event =
        (Message.SessionCarInfo s).Event) := by
  refine ⟨?_, ?_, ?_, ?_, ?_, ?_, ?_, ?_, ?_, ?_, ?_, ?_, ?_, ?_⟩ <;> intros <;> rfl

/-- C4, as stated, fails: `EventNewConnection` (51) is an inbound tag other than
NewSession/SessionInfo, yet no variant reports it for all its values, and a `CarInfo`
value reports `EventCarInfo` (54), not 51. -/
theorem newConnection_has_no_fixed_variant :
    EventNewConnection ∈ receiveEvents ∧ EventNewConnection ≠ EventNewSession ∧
    EventNewConnection ≠ EventSessionInfo ∧
    (¬ ∃ v : Variant, v.alwaysReports EventNewConnection) ∧
    (Message.CarInfo ⟨1, true, "ks_mazda_mx5_cup", "red", "Driver", "Team", "7656119"⟩).Event
      = EventCarInfo ∧
    EventCarInfo ≠ EventNewConnection := by
  refine ⟨by decide, by decide, by decide, ?_, rfl, by decide⟩
  simp only [Variant.alwaysReports_iff]
  decide

/-- C4, amended: each of the inbound tags 10, 11, 53, 54, 55, 56, 57, 58, 60 and 73 is what
exactly one variant reports for all its values; no variant reports NewConnection (51),
ConnectionClosed (52) or ClientEvent (130) for all its values; a `CarInfo` value always
reports `EventCarInfo`; and a message that reports 51 or 52 is a `SessionCarInfo` or a
`SessionInfo`, the two variants that carry their tag in a field. -/
theorem fixed_variant_of_inbound_tag :
    (∀ t ∈ [EventCollisionWithCar, EventCollisionWithEnv, EventCarUpdate, EventCarInfo,
        EventEndSession, EventVersion, EventChat, EventClientLoaded, EventError,
        EventLapCompleted], ∃! v : Variant, v.alwaysReports t) ∧
    (∀ t ∈ [EventNewConnection, EventConnectionClosed, EventClientEvent],
      ¬ ∃ v : Variant, v.alwaysReports t) ∧
    (∀ c : CarInfo, (Message.CarInfo c).Event = EventCarInfo) ∧
    (∀ m : Message, m.Event = EventNewConnection ∨ m.Event = EventConnectionClosed →
      m.variant = .SessionCarInfo ∨ m.variant = .SessionInfo) := by
  refine ⟨?_, ?_, fun _ => rfl, ?_⟩
  · simp only [Variant.alwaysReports_iff, ExistsUnique]
    decide
  · simp only [Variant.alwaysReports_iff]
    decide
  · intro m hm
    cases m <;>
      first
      | exact Or.inl rfl
      | exact Or.inr rfl
      | (exfalso
         revert hm
         simp only [Message.Event, ServerError.Event, LapCompleted.Event,
           CollisionWithCar.Event, CollisionWithEnvironment.Event, Chat.Event, CarInfo.Event,
           CarUpdate.Event, EndSession.Event, Version.Event, ClientLoaded.Event]
         decide)

/-- The amended C4 at concrete inputs: `EventChat` has exactly one fixed-tag variant, and
a `SessionCarInfo` stamped with 51 is a context-tagged variant. -/
theorem fixed_variant_of_inbound_tag_witness :
    (∃! v : Variant, v.alwaysReports EventChat) ∧
    ((Message.SessionCarInfo { SessionCarInfo.zero with event := EventNewConnection }).variant
        = .SessionCarInfo ∨
      (Message.SessionCarInfo { SessionCarInfo.zero with event := EventNewConnection }).variant
        = .SessionInfo) :=
  ⟨fixed_variant_of_inbound_tag.1 EventChat (by decide),
   fixed_variant_of_inbound_tag.2.2.2 _ (Or.inl rfl)⟩

/-- The session path succeeds exactly when the payload reads, and its result is the payload
read with the tag of the receive context in place of the zero value the read leaves. -/
theorem decodeSessionInfo_eq_ok_iff (bo : ByteOrder) (text : List Byte → String)
    (contextHint : SessionContext) (raw : List Byte) (s : SessionInfo) :
    decodeSessionInfo bo text contextHint raw = .ok s ↔
      ∃ payload, readSessionInfo bo text raw = some payload ∧ payload.event = 0 ∧
        s = { payload with event := contextHint.tag } := by
  unfold decodeSessionInfo
  cases hread : readSessionInfo bo text raw with
  | none =>
    constructor
    · intro h
      cases h
    · rintro ⟨payload, hp, _⟩
      cases hp
  | some payload =>
    have hzero : payload.event = 0 := by
      simp only [readSessionInfo, Option.bind_eq_some] at hread
      obtain ⟨_, _, _, _, _, _, _, _, hp⟩ := hread
      cases hp
      rfl
    constructor
    · intro h
      cases h
      exact ⟨payload, rfl, hzero, rfl⟩
    · rintro ⟨payload1, hp, _, rfl⟩
      cases hp
      rfl

/-- C2: every `SessionInfo` and every `SessionCarInfo` value the decoder produces, under
either receive context and from any buffer, has its tag set from the context hint:
`Event()` is the tag under which the datagram was received, it is not the zero value of
`Event`, and it is `EventNewSession` (50) or `EventSessionInfo` (59). -/
theorem decoded_session_tag_is_receive_tag (bo : ByteOrder) (text : List Byte → String)
    (readPayload : List Byte → Option SessionCarInfo) (contextHint : SessionContext)
    (raw : List Byte) :
    (∀ s : SessionInfo, decodeSessionInfo bo text contextHint raw = .ok s →
      (Message.SessionInfo s).Event = contextHint.tag ∧
      (Message.SessionInfo s).Event ≠ 0 ∧
      ((Message.SessionInfo s).Event = EventNewSession ∨
        (Message.SessionInfo s).Event = EventSessionInfo)) ∧
    (∀ c : SessionCarInfo, decodeSessionCarInfo readPayload contextHint raw = .ok c →
      (Message.SessionCarInfo c).Event = contextHint.tag ∧
      (Message.SessionCarInfo c).Event ≠ 0 ∧
      ((Message.SessionCarInfo c).Event = EventNewSession ∨
        (Message.SessionCarInfo c).Event = EventSessionInfo)) := by
  have htag : contextHint.tag ≠ 0 ∧
      (contextHint.tag = EventNewSession ∨ contextHint.tag = EventSessionInfo) := by
    cases contextHint
    · exact ⟨by decide, Or.inl rfl⟩
    · exact ⟨by decide, Or.inr rfl⟩
  constructor
  · intro s h
    unfold decodeSessionInfo at h
    split at h
    · cases h
    · cases h
      exact ⟨rfl, htag.1, htag.2⟩
  · intro c h
    unfold decodeSessionCarInfo at h
    split at h
    · cases h
    · cases h
      exact ⟨rfl, htag.1, htag.2⟩

/-- C2 on the example datagrams: the session body decoded as the answer to a session-info
query is a `SessionInfo` that reports 59, and the session-car body decoded at a new
session is a `SessionCarInfo` that reports 50; the payload fields are those of the bytes. -/
theorem decoded_session_tag_is_receive_tag_witness :
    (∃ s, decodeSessionInfo .little exampleText .SessionInfo exampleSessionBytes = .ok s ∧
      s.Track = "spa" ∧ s.Laps = 5 ∧
      (Message.SessionInfo s).Event = EventSessionInfo ∧ (Message.SessionInfo s).Event ≠ 0) ∧
    (∃ c, decodeSessionCarInfo exampleReadSessionCarInfo .NewSession exampleSessionCarBytes
        = .ok c ∧ c.CarID = 7 ∧ c.DriverName = "Al" ∧
      (Message.SessionCarInfo c).Event = EventNewSession ∧
      (Message.SessionCarInfo c).Event ≠ 0) :=
  ⟨⟨{ Version := 4, SessionIndex := 0, CurrentSessionIndex := 0, SessionCount := 1,
      ServerName := "ac", Track := "spa", TrackConfig := "", Name := "Race", Type_ := 3,
      Time := 0, Laps := 5, WaitTime := 60, AmbientTemp := 26, RoadTemp := 32,
      WeatherGraphics := "x", ElapsedMilliseconds := 0, event := EventSessionInfo },
     rfl, rfl, rfl,
     ((decoded_session_tag_is_receive_tag .little exampleText exampleReadSessionCarInfo
        .SessionInfo exampleSessionBytes).1 _ rfl).1,
     ((decoded_session_tag_is_receive_tag .little exampleText exampleReadSessionCarInfo
        .SessionInfo exampleSessionBytes).1 _ rfl).2.1⟩,
   ⟨{ CarID := 7, DriverName := "Al", DriverGUID := "1", CarMode := "gt", CarSkin := "r",
      event := EventNewSession },
     rfl, rfl, rfl,
     ((decoded_session_tag_is_receive_tag .little exampleText exampleReadSessionCarInfo
        .NewSession exampleSessionCarBytes).2 _ rfl).1,
     ((decoded_session_tag_is_receive_tag .little exampleText exampleReadSessionCarInfo
        .NewSession exampleSessionCarBytes).2 _ rfl).2.1⟩⟩

theorem readUint_of_le (bo : ByteOrder) (w : Nat) (raw : List Byte) (h : w ≤ raw.length) :
    readUint bo w raw = some (bo.toNat (raw.take w), raw.drop w) := by
  simp [readUint, h]

theorem readUint_of_lt (bo : ByteOrder) (w : Nat) (raw : List Byte) (h : raw.length < w) :
    readUint bo w raw = none := by
  simp [readUint, h]

/-- A sub-record is read exactly when eight bytes remain, and leaves the bytes after
them. -/
theorem readLapCompletedCar_isSome (bo : ByteOrder) (raw : List Byte) :
    (8 ≤ raw.length → ∃ car, readLapCompletedCar bo raw = some (car, raw.drop 8)) ∧
    (raw.length < 8 → readLapCompletedCar bo raw = none) := by
  constructor
  · intro h
    unfold readLapCompletedCar
    rw [readUint_of_le bo 1 raw (by omega)]
    simp only [bind, Option.bind]
    rw [readUint_of_le bo 4 (raw.drop 1) (by rw [List.length_drop]; omega)]
    simp only []
    rw [readUint_of_le bo 2 ((raw.drop 1).drop 4) (by simp only [List.length_drop]; omega)]
    simp only []
    rw [readUint_of_le bo 1 (((raw.drop 1).drop 4).drop 2)
      (by simp only [List.length_drop]; omega)]
    simp only [List.drop_drop, pure]
    exact ⟨_, rfl⟩
  · intro h
    unfold readLapCompletedCar
    by_cases h1 : 1 ≤ raw.length
    · rw [readUint_of_le bo 1 raw h1]
      simp only [bind, Option.bind]
      by_cases h2 : 4 ≤ (raw.drop 1).length
      · rw [readUint_of_le bo 4 (raw.drop 1) h2]
        simp only []
        by_cases h3 : 2 ≤ ((raw.drop 1).drop 4).length
        · rw [readUint_of_le bo 2 ((raw.drop 1).drop 4) h3]
          simp only []
          rw [readUint_of_lt bo 1 (((raw.drop 1).drop 4).drop 2)
            (by simp only [List.length_drop] at *; omega)]
        · rw [readUint_of_lt bo 2 ((raw.drop 1).drop 4) (by omega)]
      · rw [readUint_of_lt bo 4 (raw.drop 1) (by omega)]
    · rw [readUint_of_lt bo 1 raw (by omega)]
      rfl

/-- The sub-record loop decodes as many records as were asked for, or as the buffer
holds, whichever is less. -/
theorem readCars_length (bo : ByteOrder) (n : Nat) (raw : List Byte) :
    (readCars bo n raw).length = min n (raw.length / 8) := by
  induction n generalizing raw with
  | zero => simp [readCars]
  | succ n ih =>
    by_cases h : 8 ≤ raw.length
    · obtain ⟨car, hcar⟩ := (readLapCompletedCar_isSome bo raw).1 h
      simp only [readCars, hcar, List.length_cons, ih, List.length_drop]
      omega
    · have hnone := (readLapCompletedCar_isSome bo raw).2 (by omega)
      simp only [readCars, hnone, List.length_nil]
      omega

/-- C1: every `LapCompleted` value the decoder produces has as many per-car sub-records as
its declared car count, and a declared count the decoded sub-records do not reach is the
error `ErrCountMismatch`, never a successful result. -/
theorem decodeLapCompleted_cars_eq_count (bo : ByteOrder) (raw : List Byte) :
    (∀ lc : LapCompleted, decodeLapCompleted bo raw = .ok lc →
      lc.Cars.length = lc.toLapCompletedInternal.CarsCount) ∧
    (∀ hdr rest, readLapCompletedInternal bo raw = some (hdr, rest) →
      (readCars bo hdr.CarsCount rest).length ≠ hdr.CarsCount →
      decodeLapCompleted bo raw = .error .ErrCountMismatch) := by
  constructor
  · intro lc h
    unfold decodeLapCompleted at h
    split at h
    · cases h
    · rename_i hdr rest _
      simp only at h
      split at h
      · rename_i heq
        cases h
        exact heq
      · cases h
  · intro hdr rest hhdr hne
    unfold decodeLapCompleted
    simp only [hhdr]
    rw [if_neg hne]

/-- C1 at concrete datagrams: a header declaring one car followed by one sub-record decodes
to a value with one car, and a header declaring two cars followed by one sub-record is
`ErrCountMismatch`. -/
theorem decodeLapCompleted_cars_eq_count_witness :
    decodeLapCompleted .little [3, 1, 0, 0, 0, 2, 1, 4, 5, 0, 0, 0, 2, 0, 1] =
      .ok { toLapCompletedInternal := { CarID := 3, LapTime := 1, Cuts := 2, CarsCount := 1 },
            Cars := [{ CarID := 4, LapTime := 5, Laps := 2, Completed := 1 }] } ∧
    [({ CarID := 4, LapTime := 5, Laps := 2, Completed := 1 } : LapCompletedCar)].length = 1 ∧
    decodeLapCompleted .little [3, 1, 0, 0, 0, 2, 2, 4, 5, 0, 0, 0, 2, 0, 1] =
      .error .ErrCountMismatch :=
  ⟨rfl,
   (decodeLapCompleted_cars_eq_count .little
      [3, 1, 0, 0, 0, 2, 1, 4, 5, 0, 0, 0, 2, 0, 1]).1 _ rfl,
   (decodeLapCompleted_cars_eq_count .little
      [3, 1, 0, 0, 0, 2, 2, 4, 5, 0, 0, 0, 2, 0, 1]).2
      { CarID := 3, LapTime := 1, Cuts := 2, CarsCount := 2 } [4, 5, 0, 0, 0, 2, 0, 1]
      rfl (by decide)⟩

end Udp

namespace ServerManager

/-- The entrant loop only appends `UpsertEntrant` calls to the log: the entrants upserted
are a prefix of the named entrants of the list; when the loop runs to its end they are all
of them and no call failed; when it returns an error, that error is the result of the last
call, and no earlier call failed. -/
theorem saveEntrants_log {σ : Type} (store : RaceStore σ) (es : List Entrant) (s : σ)
    (log : List StoreCall) :
    ∃ calls : List StoreCall,
      (saveEntrants store es s log).2.2 = log ++ calls ∧
      (∀ c ∈ calls, c.isUpsertCustomRace = false) ∧
      (calls.filterMap StoreCall.entrant? <+: es.filter (fun e => e.Name ≠ "")) ∧
      ((saveEntrants store es s log).1 = none →
        (∀ c ∈ calls, c.result = none) ∧
        calls.filterMap StoreCall.entrant? = es.filter (fun e => e.Name ≠ "")) ∧
      (∀ err, (saveEntrants store es s log).1 = some err →
        ∃ init e, calls = init ++ [StoreCall.UpsertEntrant e (some err)] ∧
          ∀ c ∈ init, c.result = none) := by
  induction es generalizing s log with
  | nil =>
    refine ⟨[], by simp [saveEntrants], by simp, by simp, by simp [saveEntrants], ?_⟩
    intro err h
    simp [saveEntrants] at h
  | cons e rest ih =>
    by_cases hname : e.Name = ""
    · obtain ⟨calls, h1, h2, h3, h4, h5⟩ := ih s log
      refine ⟨calls, ?_, h2, ?_, ?_, ?_⟩
      · simpa [saveEntrants, hname] using h1
      · simpa [hname] using h3
      · simpa [saveEntrants, hname] using h4
      · simpa [saveEntrants, hname] using h5
    · cases hup : store.UpsertEntrant s e with
      | mk r s1 =>
        cases r with
        | some err =>
          refine ⟨[.UpsertEntrant e (some err)], ?_, ?_, ?_, ?_, ?_⟩
          · simp [saveEntrants, hname, hup]
          · simp [StoreCall.isUpsertCustomRace]
          · simp [StoreCall.entrant?, hname]
          · simp [saveEntrants, hname, hup]
          · intro err1 h
            simp [saveEntrants, hname, hup] at h
            subst h
            exact ⟨[], e, by simp, by simp⟩
        | none =>
          obtain ⟨calls, h1, h2, h3, h4, h5⟩ := ih s1 (log ++ [.UpsertEntrant e none])
          refine ⟨.UpsertEntrant e none :: calls, ?_, ?_, ?_, ?_, ?_⟩
          · simpa [saveEntrants, hname, hup] using h1
          · intro c hc
            rcases List.mem_cons.1 hc with rfl | hc
            · rfl
            · exact h2 c hc
          · simpa [StoreCall.entrant?, hname, List.prefix_cons_inj] using h3
          · intro hnone
            have hnone1 : (saveEntrants store rest s1 (log ++ [.UpsertEntrant e none])).1 = none := by
              simpa [saveEntrants, hname, hup] using hnone
            obtain ⟨h41, h42⟩ := h4 hnone1
            refine ⟨?_, ?_⟩
            · intro c hc
              rcases List.mem_cons.1 hc with rfl | hc
              · rfl
              · exact h41 c hc
            · simp [StoreCall.entrant?, hname, h42]
          · intro err herr
            have herr1 :
                (saveEntrants store rest s1 (log ++ [.UpsertEntrant e none])).1 = some err := by
              simpa [saveEntrants, hname, hup] using herr
            obtain ⟨init, e1, h51, h52⟩ := h5 err herr1
            refine ⟨.UpsertEntrant e none :: init, e1, by simp [h51], ?_⟩
            intro c hc
            rcases List.mem_cons.1 hc with rfl | hc
            · rfl
            · exact h52 c hc

/-- C6: `SaveCustomRace` only saves entrants that have a name. In every run the entrants
upserted have a non-empty name and come from the list. When no store call fails, the
`UpsertEntrant` calls are, in order, the entrants of the list with a non-empty name, each
list position once, followed by one `UpsertCustomRace`. When an `UpsertEntrant` call fails,
its error is the result and `UpsertCustomRace` is not called. -/
theorem SaveCustomRace_saves_named_entrants {σ : Type} (ext : Externals)
    (store : RaceStore σ) (now : Time) (newUUID : UUID) (name : String)
    (config : CurrentRaceConfig) (entryList : EntryList) (starred : Bool) (s : σ) :
    (∀ e ∈ (SaveCustomRace ext store now newUUID name config entryList starred s).2.2.filterMap
        StoreCall.entrant?, e.Name ≠ "" ∧ e ∈ entryList) ∧
    ((∀ c ∈ (SaveCustomRace ext store now newUUID name config entryList starred s).2.2,
        c.result = none) →
      (SaveCustomRace ext store now newUUID name config entryList starred s).1 = none ∧
      (SaveCustomRace ext store now newUUID name config entryList starred s).2.2.filterMap
          StoreCall.entrant? = entryList.filter (fun e => e.Name ≠ "") ∧
      (∀ e : Entrant,
        ((SaveCustomRace ext store now newUUID name config entryList starred s).2.2.filterMap
          StoreCall.entrant?).count e = if e.Name ≠ "" then entryList.count e else 0) ∧
      (SaveCustomRace ext store now newUUID name config entryList starred s).2.2.countP
          StoreCall.isUpsertCustomRace = 1) ∧
    (∀ e err, StoreCall.UpsertEntrant e (some err) ∈
        (SaveCustomRace ext store now newUUID name config entryList starred s).2.2 →
      (SaveCustomRace ext store now newUUID name config entryList starred s).1 = some err ∧
      ∀ c ∈ (SaveCustomRace ext store now newUUID name config entryList starred s).2.2,
        c.isUpsertCustomRace = false) := by
  obtain ⟨calls, h1, h2, h3, h4, h5⟩ := saveEntrants_log store entryList s []
  simp only [List.nil_append] at h1
  have hcount : ∀ e : Entrant,
      (entryList.filter (fun e => e.Name ≠ "")).count e =
        if e.Name ≠ "" then entryList.count e else 0 := by
    intro e
    by_cases hn : e.Name = ""
    · simp only [hn, ne_eq, not_true_eq_false, if_false]
      apply List.count_eq_zero.2
      intro hmem
      have := (List.mem_filter.1 hmem).2
      simp [hn] at this
    · simp only [ne_eq, hn, not_false_eq_true, if_true]
      exact List.count_filter (by simpa using hn)
  cases hres : saveEntrants store entryList s [] with
  | mk r rest =>
    obtain ⟨s1, log⟩ := rest
    rw [hres] at h1 h4 h5
    simp only at h1 h4 h5
    subst h1
    cases r with
    | some err0 =>
      obtain ⟨init, e0, hcalls, hinit⟩ := h5 err0 rfl
      have hS : SaveCustomRace ext store now newUUID name config entryList starred s =
          (some err0, s1, log) := by
        simp [SaveCustomRace, hres]
      rw [hS]
      refine ⟨?_, ?_, ?_⟩
      · intro e he
        have hmem := h3.subset he
        have := List.mem_filter.1 hmem
        exact ⟨by simpa using this.2, this.1⟩
      · intro hall
        have := hall (.UpsertEntrant e0 (some err0)) (by simp [hcalls])
        simp [StoreCall.result] at this
      · intro e err hmem
        refine ⟨?_, h2⟩
        simp only [hcalls, List.mem_append, List.mem_singleton] at hmem
        rcases hmem with hmem | hmem
        · have := hinit _ hmem
          simp [StoreCall.result] at this
        · injection hmem with _ h
          rw [h]
    | none =>
      obtain ⟨hnone, hfm⟩ := h4 rfl
      cases hup : store.UpsertCustomRace s1
          { Name := if name = "" then
              ext.prettifyName config.Track false ++ " (" ++
                ext.prettifyName config.TrackLayout true ++ ") in " ++
                ext.carList config.Cars ++ " (" ++ toString entryList.length ++ " entrants)"
              else name,
            Created := now, UUID := newUUID, Starred := starred, RaceConfig := config,
            EntryList := entryList } with
      | mk err2 s2 =>
        have hS : SaveCustomRace ext store now newUUID name config entryList starred s =
            (err2, s2, log ++ [.UpsertCustomRace
              { Name := if name = "" then
                  ext.prettifyName config.Track false ++ " (" ++
                    ext.prettifyName config.TrackLayout true ++ ") in " ++
                    ext.carList config.Cars ++ " (" ++ toString entryList.length ++
                    " entrants)"
                  else name,
                Created := now, UUID := newUUID, Starred := starred, RaceConfig := config,
                EntryList := entryList } err2]) := by
          simp [SaveCustomRace, hres, hup]
        rw [hS]
        have hfm2 : (log ++ [StoreCall.UpsertCustomRace
              { Name := if name = "" then
                  ext.prettifyName config.Track false ++ " (" ++
                    ext.prettifyName config.TrackLayout true ++ ") in " ++
                    ext.carList config.Cars ++ " (" ++ toString entryList.length ++
                    " entrants)"
                  else name,
                Created := now, UUID := newUUID, Starred := starred, RaceConfig := config,
                EntryList := entryList } err2]).filterMap StoreCall.entrant? =
            entryList.filter (fun e => e.Name ≠ "") := by
          simp [List.filterMap_append, StoreCall.entrant?, hfm]
        refine ⟨?_, ?_, ?_⟩
        · intro e he
          rw [hfm2] at he
          have := List.mem_filter.1 he
          exact ⟨by simpa using this.2, this.1⟩
        · intro hall
          have herr2 := hall _ (List.mem_append_right _ (List.mem_singleton.2 rfl))
          simp only [StoreCall.result] at herr2
          refine ⟨herr2, hfm2, ?_, ?_⟩
          · intro e
            rw [hfm2]
            exact hcount e
          · have h0 : log.countP StoreCall.isUpsertCustomRace = 0 :=
              List.countP_eq_zero.2 (fun c hc => by simp [h2 c hc])
            simp [List.countP_append, h0, StoreCall.isUpsertCustomRace]
        · intro e err hmem
          exfalso
          simp only [List.mem_append, List.mem_singleton] at hmem
          rcases hmem with hmem | hmem
          · have := hnone _ hmem
            simp [StoreCall.result] at this
          · cases hmem

/-- With at least one car the loop of `SetupQuickRace` does not panic: from counter value
`i` it adds one entrant for each `j` with `i ≤ j < maxClients`, the one for `j` with the
model `cars[j % len(cars)]`. -/
theorem fillEntryList_eq (cars : List String) (hcars : cars.length ≠ 0) (maxClients : Int)
    (i : Nat) (entryList : EntryList) :
    fillEntryList cars maxClients i entryList =
      some (entryList ++ (List.range' i (maxClients - i).toNat).map
        (fun j => ({ Model := cars.getD (j % cars.length) "" } : Entrant))) := by
  generalize hk : (maxClients - i).toNat = k
  induction k generalizing i entryList with
  | zero =>
    rw [fillEntryList, if_neg (by omega)]
    simp
  | succ k ih =>
    have hlt : i % cars.length < cars.length := Nat.mod_lt _ (by omega)
    rw [fillEntryList, if_pos (by omega), if_neg hcars, List.getElem?_eq_getElem hlt]
    simp only []
    rw [ih (i + 1) _ (by omega)]
    simp [EntryList.Add, List.range'_succ, List.getElem?_eq_getElem hlt]

/-- C7: for a form with at least one `Cars` value and parsable `Qualifying.Time`,
`Race.Time` and `Race.Laps`, `SetupQuickRace` does not panic and adds one entrant per value
`i` of the loop counter, `0 ≤ i < MaxClients` (so `MaxClients` of them), the `i`-th with
`Model = cars[i mod n]`, an index that is in range; for a form with no `Cars` value it
returns an error with no entrant added, nothing written and the server not started. -/
theorem SetupQuickRace_fills_entry_list (ext : Externals) (h : Host)
    (ConfigIniDefault : ServerConfig) (rm : RaceManager) (r : Request) :
    (∀ qualifyingTime raceTime raceLaps,
      r.ParseForm = none → 1 ≤ (r.Form "Cars").length →
      ext.ParseInt (Values.Get r.Form "Qualifying.Time") = .ok qualifyingTime →
      ext.ParseInt (Values.Get r.Form "Race.Time") = .ok raceTime →
      ext.ParseInt (Values.Get r.Form "Race.Laps") = .ok raceLaps →
      ∃ res, SetupQuickRace ext h ConfigIniDefault rm r = some res ∧
        res.entryList.length = ConfigIniDefault.GlobalServerConfig.MaxClients.toNat ∧
        (0 ≤ ConfigIniDefault.GlobalServerConfig.MaxClients →
          (res.entryList.length : Int) = ConfigIniDefault.GlobalServerConfig.MaxClients) ∧
        (∀ i : Nat, i < ConfigIniDefault.GlobalServerConfig.MaxClients.toNat →
          i % (r.Form "Cars").length < (r.Form "Cars").length ∧
          ∃ model, (r.Form "Cars")[i % (r.Form "Cars").length]? = some model ∧
            res.entryList[i]? = some { Model := model })) ∧
    (r.Form "Cars" = [] →
      ∃ res, SetupQuickRace ext h ConfigIniDefault rm r = some res ∧
        res.err ≠ none ∧ res.entryList = [] ∧ res.effects = [] ∧ res.rm = rm) := by
  constructor
  · intro qualifyingTime raceTime raceLaps hparse hcars hq ht hl
    have hn : (r.Form "Cars").length ≠ 0 := by omega
    have hfill := fillEntryList_eq (r.Form "Cars") hn
      ConfigIniDefault.GlobalServerConfig.MaxClients 0 []
    simp only [Nat.cast_zero, sub_zero, List.nil_append] at hfill
    have hS : ∃ err rm1 effects, SetupQuickRace ext h ConfigIniDefault rm r =
        some { err := err,
               entryList := (List.range' 0 ConfigIniDefault.GlobalServerConfig.MaxClients.toNat).map
                 (fun j => ({ Model := (r.Form "Cars").getD (j % (r.Form "Cars").length) "" } :
                   Entrant)),
               rm := rm1, effects := effects } := by
      simp only [SetupQuickRace, hparse, hq, ht, hl, if_neg hn, hfill]
      exact ⟨_, _, _, rfl⟩
    obtain ⟨err, rm1, effects, hS⟩ := hS
    refine ⟨_, hS, ?_, ?_, ?_⟩
    · simp
    · intro h0
      simp [Int.toNat_of_nonneg h0]
    · intro i hi
      have hlt : i % (r.Form "Cars").length < (r.Form "Cars").length :=
        Nat.mod_lt _ (by omega)
      refine ⟨hlt, (r.Form "Cars")[i % (r.Form "Cars").length], ?_, ?_⟩
      · exact List.getElem?_eq_getElem hlt
      · simp [List.getElem?_map, List.getElem?_range', hi, List.getElem?_eq_getElem hlt]
  · intro hcars
    cases hp : r.ParseForm with
    | some err =>
      exact ⟨{ err := some err, entryList := [], rm := rm, effects := [] },
        by simp only [SetupQuickRace, hp], by simp, rfl, rfl, rfl⟩
    | none =>
      cases hq : ext.ParseInt (Values.Get r.Form "Qualifying.Time") with
      | error err =>
        exact ⟨{ err := some err, entryList := [], rm := rm, effects := [] },
          by simp only [SetupQuickRace, hp, hq], by simp, rfl, rfl, rfl⟩
      | ok qualifyingTime =>
        cases ht : ext.ParseInt (Values.Get r.Form "Race.Time") with
        | error err =>
          exact ⟨{ err := some err, entryList := [], rm := rm, effects := [] },
            by simp only [SetupQuickRace, hp, hq, ht], by simp, rfl, rfl, rfl⟩
        | ok raceTime =>
          cases hl : ext.ParseInt (Values.Get r.Form "Race.Laps") with
          | error err =>
            exact ⟨{ err := some err, entryList := [], rm := rm, effects := [] },
              by simp only [SetupQuickRace, hp, hq, ht, hl], by simp, rfl, rfl, rfl⟩
          | ok raceLaps =>
            exact ⟨{ err := some (.New "you must submit a car"), entryList := [], rm := rm,
                     effects := [] },
              by simp only [SetupQuickRace, hp, hq, ht, hl, hcars, List.length_nil, if_true],
              by simp, rfl, rfl, rfl⟩

/-- The splitting loop appends the starred races to `starred` and the others to
`filteredRecent`, each in the order met. -/
theorem splitStarred_eq (l starred filteredRecent : List CustomRace) :
    splitStarred l starred filteredRecent =
      (starred ++ l.filter (fun r => r.Starred),
       filteredRecent ++ l.filter (fun r => !r.Starred)) := by
  induction l generalizing starred filteredRecent with
  | nil => simp [splitStarred]
  | cons race rest ih =>
    cases hst : race.Starred <;> simp [splitStarred, hst, ih]

/-- C9: for a list of races the store returns without error, and a `sort.Slice` that
returns a sorted rearrangement of it, `ListCustomRaces` returns no error; `starred` is a
rearrangement of the starred races (none is dropped); `recent` holds only non-starred
races; both lists are in non-increasing order of `Created`; `recent` has
`min 30 (number of non-starred races)` entries; and the non-starred races left out of
`recent` were each created no later than every race kept. On `bbolt.ErrBucketNotFound` the
result is `(nil, nil, nil)`, on any other store error `(nil, nil, err)`. -/
theorem ListCustomRaces_splits_and_caps {σ : Type}
    (sortSlice : List CustomRace → (CustomRace → CustomRace → Bool) → List CustomRace)
    (store : RaceStore σ) (s : σ) :
    (∀ races, store.ListCustomRaces s = (races, none) →
      (sortSlice races (fun a b => Time.After a.Created b.Created)).Perm races →
      List.Chain' (fun a b => Time.After b.Created a.Created = false)
        (sortSlice races (fun a b => Time.After a.Created b.Created)) →
      ∃ recent starred, ListCustomRaces sortSlice store s = (recent, starred, none) ∧
        starred.Perm (races.filter (fun r => r.Starred)) ∧
        starred.length = (races.filter (fun r => r.Starred)).length ∧
        (∀ r ∈ recent, r.Starred = false) ∧
        recent.Pairwise (fun a b => b.Created ≤ a.Created) ∧
        starred.Pairwise (fun a b => b.Created ≤ a.Created) ∧
        recent.length = min 30 (races.filter (fun r => !r.Starred)).length ∧
        ∃ leftOut, (recent ++ leftOut).Perm (races.filter (fun r => !r.Starred)) ∧
          ∀ x ∈ leftOut, ∀ y ∈ recent, x.Created ≤ y.Created) ∧
    (∀ races, store.ListCustomRaces s = (races, some .ErrBucketNotFound) →
      ListCustomRaces sortSlice store s = ([], [], none)) ∧
    (∀ races err, store.ListCustomRaces s = (races, some err) → err ≠ .ErrBucketNotFound →
      ListCustomRaces sortSlice store s = ([], [], some err)) := by
  refine ⟨?_, ?_, ?_⟩
  · intro races hstore hperm hsorted
    generalize hsd : sortSlice races (fun a b => Time.After a.Created b.Created) = sorted
      at hperm hsorted
    have hchain : List.Chain' (fun a b : CustomRace => b.Created ≤ a.Created) sorted := by
      refine hsorted.imp ?_
      intro a b hab
      simpa [Time.After] using hab
    have htrans : IsTrans CustomRace (fun a b => b.Created ≤ a.Created) :=
      ⟨fun a b c hab hbc => le_trans hbc hab⟩
    have hpw : sorted.Pairwise (fun a b => b.Created ≤ a.Created) :=
      List.chain'_iff_pairwise.1 hchain
    have hpwN : (sorted.filter (fun r => !r.Starred)).Pairwise
        (fun a b => b.Created ≤ a.Created) := hpw.sublist (List.filter_sublist _)
    have hpwS : (sorted.filter (fun r => r.Starred)).Pairwise
        (fun a b => b.Created ≤ a.Created) := hpw.sublist (List.filter_sublist _)
    have hres : ListCustomRaces sortSlice store s =
        ((sorted.filter (fun r => !r.Starred)).take 30, sorted.filter (fun r => r.Starred),
          none) := by
      simp only [ListCustomRaces, hstore, hsd, splitStarred_eq, List.nil_append,
        maxRecentRaces]
      by_cases hlen : (sorted.filter (fun r => !r.Starred)).length > 30
      · rw [if_pos hlen]
      · rw [if_neg hlen, List.take_of_length_le (by omega)]
    refine ⟨_, _, hres, hperm.filter _, (hperm.filter _).length_eq, ?_, ?_, hpwS, ?_, ?_⟩
    · intro r hr
      have := (List.mem_filter.1 (List.mem_of_mem_take hr)).2
      simpa using this
    · exact hpwN.sublist (List.take_sublist _ _)
    · rw [List.length_take, (hperm.filter _).length_eq]
    · refine ⟨(sorted.filter (fun r => !r.Starred)).drop 30, ?_, ?_⟩
      · rw [List.take_append_drop]
        exact hperm.filter _
      · intro x hx y hy
        have hsplit := hpwN
        rw [← List.take_append_drop 30 (sorted.filter (fun r => !r.Starred))] at hsplit
        exact (List.pairwise_append.1 hsplit).2.2 y hy x hx
  · intro races hstore
    simp only [ListCustomRaces, hstore]
  · intro races err hstore hne
    cases err <;> first | exact absurd rfl hne | simp only [ListCustomRaces, hstore]

/-- C9 on the example store: thirty-three non-starred races and one starred one give a
`recent` list of thirty and a `starred` list of one; a store without the bucket gives three
nils, and another store error is handed back. -/
theorem ListCustomRaces_splits_and_caps_witness :
    (∃ recent starred,
      ListCustomRaces exampleSortSlice (exampleStore false) () = (recent, starred, none) ∧
        starred.Perm (exampleRaces.filter (fun r => r.Starred)) ∧
        starred.length = (exampleRaces.filter (fun r => r.Starred)).length ∧
        (∀ r ∈ recent, r.Starred = false) ∧
        recent.Pairwise (fun a b => b.Created ≤ a.Created) ∧
        starred.Pairwise (fun a b => b.Created ≤ a.Created) ∧
        recent.length = min 30 (exampleRaces.filter (fun r => !r.Starred)).length ∧
        ∃ leftOut, (recent ++ leftOut).Perm (exampleRaces.filter (fun r => !r.Starred)) ∧
          ∀ x ∈ leftOut, ∀ y ∈ recent, x.Created ≤ y.Created) ∧
    ListCustomRaces exampleSortSlice (exampleBrokenStore .ErrBucketNotFound) () =
      ([], [], none) ∧
    ListCustomRaces exampleSortSlice (exampleBrokenStore (.Other "timeout")) () =
      ([], [], some (.Other "timeout")) :=
  ⟨(ListCustomRaces_splits_and_caps exampleSortSlice (exampleStore false) ()).1
      exampleRaces rfl (List.perm_insertionSort _ _)
      (by
        have htotal : IsTotal CustomRace
            (fun a b => Time.After b.Created a.Created = false) :=
          ⟨fun a b => by
            simp only [Time.After, decide_eq_false_iff_not, not_lt]
            exact le_total _ _⟩
        have htrans : IsTrans CustomRace
            (fun a b => Time.After b.Created a.Created = false) :=
          ⟨fun a b c => by
            simp only [Time.After, decide_eq_false_iff_not, not_lt]
            exact fun hab hbc => le_trans hbc hab⟩
        exact (List.sorted_insertionSort
          (fun a b : CustomRace => Time.After b.Created a.Created = false)
          exampleRaces).chain'),
   (ListCustomRaces_splits_and_caps exampleSortSlice
      (exampleBrokenStore .ErrBucketNotFound) ()).2.1 [] rfl,
   (ListCustomRaces_splits_and_caps exampleSortSlice
      (exampleBrokenStore (.Other "timeout")) ()).2.2 [] _ rfl (by decide)⟩

/-- C6 on the example entry list (Ann, a nameless entrant, Bob): with a store that accepts
every write the entrants upserted are Ann and Bob; with a store that fails on Bob the
error of that call is the result. -/
theorem SaveCustomRace_saves_named_entrants_witness :
    (SaveCustomRace exampleExt (exampleStore false) 5 9 "Sprint" {} exampleEntryList false
        ()).2.2.filterMap StoreCall.entrant? =
      exampleEntryList.filter (fun e => e.Name ≠ "") ∧
    (SaveCustomRace exampleExt (exampleStore true) 5 9 "Sprint" {} exampleEntryList false
        ()).1 = some (.Other "bbolt: database not open") ∧
    (∀ c ∈ (SaveCustomRace exampleExt (exampleStore true) 5 9 "Sprint" {} exampleEntryList
        false ()).2.2, c.isUpsertCustomRace = false) :=
  ⟨((SaveCustomRace_saves_named_entrants exampleExt (exampleStore false) 5 9 "Sprint" {}
      exampleEntryList false ()).2.1 (by decide)).2.1,
   ((SaveCustomRace_saves_named_entrants exampleExt (exampleStore true) 5 9 "Sprint" {}
      exampleEntryList false ()).2.2 { Name := "Bob", Model := "ks_audi_r8_lms" }
      (.Other "bbolt: database not open") (by decide)).1,
   ((SaveCustomRace_saves_named_entrants exampleExt (exampleStore true) 5 9 "Sprint" {}
      exampleEntryList false ()).2.2 { Name := "Bob", Model := "ks_audi_r8_lms" }
      (.Other "bbolt: database not open") (by decide)).2⟩

/-- C7 on the example forms: with two cars and three client slots the entry list gets
three entrants, and without a car the call returns an error with nothing done. -/
theorem SetupQuickRace_fills_entry_list_witness :
    (∃ res, SetupQuickRace exampleExt exampleHost exampleDefault ⟨none⟩ exampleQuickRaceForm
        = some res ∧
      res.entryList.length = exampleDefault.GlobalServerConfig.MaxClients.toNat ∧
      (0 ≤ exampleDefault.GlobalServerConfig.MaxClients →
        (res.entryList.length : Int) = exampleDefault.GlobalServerConfig.MaxClients) ∧
      (∀ i : Nat, i < exampleDefault.GlobalServerConfig.MaxClients.toNat →
        i % (exampleQuickRaceForm.Form "Cars").length
          < (exampleQuickRaceForm.Form "Cars").length ∧
        ∃ model, (exampleQuickRaceForm.Form "Cars")[i %
            (exampleQuickRaceForm.Form "Cars").length]? = some model ∧
          res.entryList[i]? = some { Model := model })) ∧
    (∃ res, SetupQuickRace exampleExt exampleHost exampleDefault ⟨none⟩ exampleFormWithoutCars
        = some res ∧
      res.err ≠ none ∧ res.entryList = [] ∧ res.effects = [] ∧ res.rm = ⟨none⟩) :=
  ⟨(SetupQuickRace_fills_entry_list exampleExt exampleHost exampleDefault ⟨none⟩
      exampleQuickRaceForm).1 10 0 5 rfl (by decide) rfl rfl rfl,
   (SetupQuickRace_fills_entry_list exampleExt exampleHost exampleDefault ⟨none⟩
      exampleFormWithoutCars).2 rfl⟩

/-- The first call `applyConfigAndStart` makes is `config.Write()` on its argument. -/
theorem applyConfigAndStart_head (h : Host) (rm : RaceManager) (config : ServerConfig)
    (entryList : EntryList) :
    ∃ rest, (applyConfigAndStart h rm config entryList).2.2 = .ConfigWrite config :: rest := by
  unfold applyConfigAndStart
  cases h.ConfigWrite config with
  | some err => exact ⟨_, rfl⟩
  | none =>
    cases h.EntryListWrite entryList with
    | some err => exact ⟨_, rfl⟩
    | none =>
      cases h.IsRunning with
      | true => exact ⟨_, rfl⟩
      | false =>
        cases h.Start with
        | some err => exact ⟨_, rfl⟩
        | none => exact ⟨_, rfl⟩

/-- The configuration a successful form hands to `config.Write()`: the value of
`ConfigIniDefault` with the cars, track, layout and the two sessions of the form. -/
theorem SetupQuickRace_writtenConfig (ext : Externals) (h : Host)
    (ConfigIniDefault : ServerConfig) (rm : RaceManager) (r : Request)
    (qualifyingTime raceTime raceLaps : Int)
    (hparse : r.ParseForm = none) (hcars : 1 ≤ (r.Form "Cars").length)
    (hq : ext.ParseInt (Values.Get r.Form "Qualifying.Time") = .ok qualifyingTime)
    (ht : ext.ParseInt (Values.Get r.Form "Race.Time") = .ok raceTime)
    (hl : ext.ParseInt (Values.Get r.Form "Race.Laps") = .ok raceLaps) :
    writtenConfig (SetupQuickRace ext h ConfigIniDefault rm r) =
      some { GlobalServerConfig := ConfigIniDefault.GlobalServerConfig,
             CurrentRaceConfig :=
               ext.AddSession
                 (ext.AddSession
                   { ConfigIniDefault.CurrentRaceConfig with
                     Cars := String.intercalate ";" (r.Form "Cars"),
                     Track := Values.Get r.Form "Track",
                     TrackLayout := Values.Get r.Form "TrackLayout",
                     Sessions := [] }
                   .SessionTypeQualifying
                   { Name := "Qualify", Time := qualifyingTime, IsOpen := 1 })
                 .SessionTypeRace
                 { Name := "Race", Time := raceTime, Laps := raceLaps, IsOpen := 1,
                   WaitTime := 60 } } := by
  have hn : (r.Form "Cars").length ≠ 0 := by omega
  have hfill := fillEntryList_eq (r.Form "Cars") hn
    ConfigIniDefault.GlobalServerConfig.MaxClients 0 []
  simp only [SetupQuickRace, hparse, hq, ht, hl, if_neg hn, hfill]
  obtain ⟨rest, hrest⟩ := applyConfigAndStart_head h rm
    { GlobalServerConfig := ConfigIniDefault.GlobalServerConfig,
      CurrentRaceConfig :=
        ext.AddSession
          (ext.AddSession
            { ConfigIniDefault.CurrentRaceConfig with
              Cars := String.intercalate ";" (r.Form "Cars"),
              Track := Values.Get r.Form "Track",
              TrackLayout := Values.Get r.Form "TrackLayout",
              Sessions := [] }
            .SessionTypeQualifying
            { Name := "Qualify", Time := qualifyingTime, IsOpen := 1 })
          .SessionTypeRace
          { Name := "Race", Time := raceTime, Laps := raceLaps, IsOpen := 1,
            WaitTime := 60 } }
    ([] ++ (List.range' 0 (ConfigIniDefault.GlobalServerConfig.MaxClients - (0 : Nat)).toNat).map
      (fun j => ({ Model := (r.Form "Cars").getD (j % (r.Form "Cars").length) "" } : Entrant)))
  simp only [writtenConfig, hrest]

/-- The function `BuildRaceOpts` leaves `ConfigIniDefault` as it was when the request has no `from`
parameter, and when it returns the error of a failed listing or lookup made before the
template is loaded. -/
theorem BuildRaceOpts_keeps_default_without_template {σ Cars CarOpts Tyres Weather : Type}
    (ext : Externals) (content : Content Cars CarOpts Tyres Weather) (store : RaceStore σ)
    (s : σ) (ConfigIniDefault : ServerConfig) (r : Request)
    (hfrom : Values.Get r.Query "from" = "") :
    (BuildRaceOpts ext content store s ConfigIniDefault r).2 = ConfigIniDefault := by
  unfold BuildRaceOpts
  cases content.ListCars with
  | error err => rfl
  | ok cars =>
    cases content.ListTracks with
    | error err => rfl
    | ok tracks =>
      cases content.ListTyres with
      | error err => rfl
      | ok tyres =>
        cases content.ListWeather with
        | error err => rfl
        | ok weather =>
          simp only [hfrom, ne_eq, not_true_eq_false, if_false]
          cases store.ListEntrants s with
          | error err => rfl
          | ok possibleEntrants => rfl

/-- C8, evaluated on the example: a request `?from=7` for the race form succeeds and
leaves `ConfigIniDefault` holding the race configuration of custom race `7` in place of
the default one (ABS allowed, where the default was ABS off); a quick race set up
afterwards with the same form writes a configuration with ABS allowed, where before the
request it wrote one with ABS off. -/
theorem BuildRaceOpts_overwrites_ConfigIniDefault :
    (BuildRaceOpts exampleExt exampleContent (exampleStore false) () exampleDefault
      exampleFromRequest).1.toOption.isSome = true ∧
    (BuildRaceOpts exampleExt exampleContent (exampleStore false) () exampleDefault
      exampleFromRequest).2 =
      { exampleDefault with CurrentRaceConfig := exampleCustomRace.RaceConfig } ∧
    (BuildRaceOpts exampleExt exampleContent (exampleStore false) () exampleDefault
      exampleFromRequest).2 ≠ exampleDefault ∧
    (writtenConfig (SetupQuickRace exampleExt exampleHost exampleDefault ⟨none⟩
      exampleQuickRaceForm)).map (fun c => c.CurrentRaceConfig.ABSAllowed) = some 0 ∧
    (writtenConfig (SetupQuickRace exampleExt exampleHost
      (BuildRaceOpts exampleExt exampleContent (exampleStore false) () exampleDefault
        exampleFromRequest).2 ⟨none⟩
      exampleQuickRaceForm)).map (fun c => c.CurrentRaceConfig.ABSAllowed) = some 1 := by
  refine ⟨by decide, by decide, by decide, ?_, ?_⟩
  · rw [SetupQuickRace_writtenConfig exampleExt exampleHost exampleDefault ⟨none⟩
      exampleQuickRaceForm 10 0 5 rfl (by decide) rfl rfl rfl]
    rfl
  · rw [SetupQuickRace_writtenConfig exampleExt exampleHost _ ⟨none⟩
      exampleQuickRaceForm 10 0 5 rfl (by decide) rfl rfl rfl]
    rfl

end ServerManager
